import Mathlib

/-!
Shallow embedding of the patient event store of `src/backend/store.py` and its
data model of `src/backend/schemas.py`.

Python dicts are modelled as insertion-ordered association lists, Python
`sorted` as a stable insertion sort over a boolean comparator (stable sorts
are extensionally unique, so this agrees with CPython's stable mergesort),
pydantic model construction as `Except`-valued validators, and the snapshot
file written by `save_data` as a `disk` component of the store state.
-/

namespace PatientData

/-! ## String comparison and stable sorting

CPython compares strings lexicographically by code point; `sorted` is a
stable sort, and `reverse=True` sorts as if each comparison were reversed
while keeping equal elements in their original order. -/

/-- Lexicographic less-or-equal on character lists by code point, the
comparison CPython uses for `str`. -/
def charListLe : List Char → List Char → Bool
  | [], _ => true
  | _ :: _, [] => false
  | a :: as, b :: bs => if a = b then charListLe as bs else decide (a < b)

/-- Lexicographic less-or-equal on strings (CPython `str.__le__`). -/
def strLe (a b : String) : Bool := charListLe a.data b.data

/-- Insert an element into a list sorted by `le`, before the first element it
compares `le`-true against (this makes the fold below a stable sort). -/
def insertSorted (le : α → α → Bool) (x : α) : List α → List α
  | [] => [x]
  | y :: ys => if le x y then x :: y :: ys else y :: insertSorted le x ys

/-- Stable sort by a boolean comparator: the model of CPython `sorted`. -/
def sortBy (le : α → α → Bool) (l : List α) : List α :=
  l.foldr (insertSorted le) []

theorem perm_insertSorted (le : α → α → Bool) (x : α) (l : List α) :
    List.Perm (insertSorted le x l) (x :: l) := by
  induction l with
  | nil => simp [insertSorted]
  | cons y ys ih =>
    simp only [insertSorted]
    split
    · exact List.Perm.refl _
    · exact (List.Perm.cons y ih).trans (List.Perm.swap x y ys)

theorem perm_sortBy (le : α → α → Bool) (l : List α) : List.Perm (sortBy le l) l := by
  induction l with
  | nil => simp [sortBy]
  | cons x xs ih =>
    simp only [sortBy, List.foldr] at *
    exact (perm_insertSorted le x _).trans (ih.cons x)

theorem mem_insertSorted (le : α → α → Bool) (x : α) (l : List α) (a : α) :
    a ∈ insertSorted le x l ↔ a = x ∨ a ∈ l := by
  have := (perm_insertSorted le x l).mem_iff (a := a)
  simpa using this

theorem pairwise_insertSorted (le : α → α → Bool)
    (total : ∀ a b, le a b || le b a)
    (htrans : ∀ a b c, le a b = true → le b c = true → le a c = true)
    (x : α) : ∀ (l : List α), l.Pairwise (le · ·) →
    (insertSorted le x l).Pairwise (le · ·)
  | [], _ => by simp [insertSorted]
  | y :: ys, h => by
    simp only [insertSorted]
    rcases List.pairwise_cons.mp h with ⟨hy, hys⟩
    by_cases hxy : le x y = true
    · rw [if_pos hxy]
      refine List.pairwise_cons.mpr ⟨?_, h⟩
      intro b hb
      rcases List.mem_cons.mp hb with hb | hb
      · rw [hb]; exact hxy
      · exact htrans x y b hxy (hy b hb)
    · rw [if_neg hxy]
      refine List.pairwise_cons.mpr
        ⟨?_, pairwise_insertSorted le total htrans x ys hys⟩
      intro b hb
      rcases (mem_insertSorted le x ys b).mp hb with hb | hb
      · rw [hb]
        rcases Bool.or_eq_true_iff.mp (total x y) with h1 | h1
        · exact absurd h1 hxy
        · exact h1
      · exact hy b hb

theorem pairwise_sortBy (le : α → α → Bool)
    (total : ∀ a b, le a b || le b a)
    (htrans : ∀ a b c, le a b = true → le b c = true → le a c = true)
    (l : List α) : (sortBy le l).Pairwise (le · ·) := by
  induction l with
  | nil => simp [sortBy]
  | cons x xs ih =>
    simp only [sortBy, List.foldr] at *
    exact pairwise_insertSorted le total htrans x _ ih

/-- `strLe` is total. -/
theorem strLe_total (a b : String) : strLe a b || strLe b a := by
  unfold strLe
  generalize a.data = as
  generalize b.data = bs
  induction as generalizing bs with
  | nil => simp [charListLe]
  | cons x xs ih =>
    cases bs with
    | nil => simp [charListLe]
    | cons y ys =>
      simp only [charListLe]
      by_cases hxy : x = y
      · subst hxy
        simpa using ih ys
      · have hyx : ¬ y = x := fun h => hxy h.symm
        simp only [if_neg hxy, if_neg hyx]
        rcases lt_trichotomy x y with h | h | h
        · simp [h]
        · exact absurd h hxy
        · simp [h]

/-- `strLe` is transitive. -/
theorem strLe_trans (a b c : String) :
    strLe a b = true → strLe b c = true → strLe a c = true := by
  unfold strLe
  generalize a.data = as
  generalize b.data = bs
  generalize c.data = cs
  induction as generalizing bs cs with
  | nil => simp [charListLe]
  | cons x xs ih =>
    cases bs with
    | nil => simp [charListLe]
    | cons y ys =>
      cases cs with
      | nil => simp [charListLe]
      | cons z zs =>
        simp only [charListLe]
        by_cases hxy : x = y <;> by_cases hyz : y = z
        · subst hxy; subst hyz
          simp only [if_pos rfl]
          exact ih ys zs
        · subst hxy
          simp only [if_pos rfl, if_neg hyz]
          exact fun _ h => h
        · subst hyz
          simp only [if_pos rfl, if_neg hxy]
          exact fun h _ => h
        · simp only [if_neg hxy, if_neg hyz, decide_eq_true_eq]
          intro h1 h2
          have hxz : x < z := lt_trans h1 h2
          have hne : ¬ x = z := ne_of_lt hxz
          simp [if_neg hne, hxz]

/-! ## Enumerations (`schemas.py`)

`EventType`, `TriageRoute`, `LifestyleCategory`, `TaskUrgency` and
`TaskStatus` are `str`-valued enums; the `parse…` functions model pydantic
coercion of an incoming string to the enum (failing on any other string). -/

/-- `schemas.EventType`. -/
inductive EventType where
  | symptom | wellness | treatment | workflow_result | lifestyle
deriving DecidableEq, Repr

/-- String value of an `EventType` member. -/
def EventType.toTag : EventType → String
  | .symptom => "symptom"
  | .wellness => "wellness"
  | .treatment => "treatment"
  | .workflow_result => "workflow_result"
  | .lifestyle => "lifestyle"

/-- Pydantic coercion `EventType(s)`. -/
def parseEventType (s : String) : Option EventType :=
  if s = "symptom" then some .symptom
  else if s = "wellness" then some .wellness
  else if s = "treatment" then some .treatment
  else if s = "workflow_result" then some .workflow_result
  else if s = "lifestyle" then some .lifestyle
  else none

/-- `schemas.TriageRoute`. -/
inductive TriageRoute where
  | green | yellow | red
deriving DecidableEq, Repr

/-- String value of a `TriageRoute` member. -/
def TriageRoute.toTag : TriageRoute → String
  | .green => "green"
  | .yellow => "yellow"
  | .red => "red"

/-- Pydantic coercion `TriageRoute(s)`. -/
def parseRoute (s : String) : Option TriageRoute :=
  if s = "green" then some .green
  else if s = "yellow" then some .yellow
  else if s = "red" then some .red
  else none

/-- `schemas.LifestyleCategory`. -/
inductive LifestyleCategory where
  | diet | exercise | sleep | stress | travel | other
deriving DecidableEq, Repr

/-- String value of a `LifestyleCategory` member. -/
def LifestyleCategory.toTag : LifestyleCategory → String
  | .diet => "diet"
  | .exercise => "exercise"
  | .sleep => "sleep"
  | .stress => "stress"
  | .travel => "travel"
  | .other => "other"

/-- Pydantic coercion `LifestyleCategory(s)`. -/
def parseCategory (s : String) : Option LifestyleCategory :=
  if s = "diet" then some .diet
  else if s = "exercise" then some .exercise
  else if s = "sleep" then some .sleep
  else if s = "stress" then some .stress
  else if s = "travel" then some .travel
  else if s = "other" then some .other
  else none

/-- `schemas.TaskUrgency`. -/
inductive TaskUrgency where
  | routine | urgent | stat
deriving DecidableEq, Repr

/-- `schemas.TaskStatus`. -/
inductive TaskStatus where
  | pending | in_progress | completed | cancelled
deriving DecidableEq, Repr

/-! ## Event model (`schemas.py`)

The common envelope of `BaseEvent` is `id`, `patient_id`, `timestamp`
(required `str` fields) plus `event_type`.  The remaining envelope fields
(`source`, `confidence`, `derived_from`, `schema_version`,
`correlation_id`) are optional with defaults, are never read by the store,
and serialize/parse symmetrically; they are left out of the model.  The
`event_type` field of each variant defaults to that variant's tag and is
represented by the variant constructor itself. -/

/-- Required envelope fields shared by every event variant. -/
structure Envelope where
  id : String
  patient_id : String
  timestamp : String
deriving DecidableEq, Repr

/-- `schemas.Severity` (all fields optional with defaults). -/
structure Severity where
  value : Option Int := none
  scale : Option String := some "0_10"
  label : Option String := none
deriving DecidableEq, Repr

/-- `schemas.Frequency` (all fields optional with defaults). -/
structure Frequency where
  valuePerDay : Option Int := none
  bucket : Option String := none
deriving DecidableEq, Repr

/-- A validated `schemas.SymptomMeasurement`: `name` is required. -/
structure Measurement where
  name : String
  severity : Option Severity := none
  frequency : Option Frequency := none
  trend : Option String := none
  rawAnswer : Option String := none
deriving DecidableEq, Repr

/-- An incoming (unvalidated) `SymptomMeasurement` dict. -/
structure MeasurementDoc where
  name : Option String := none
  severity : Option Severity := none
  frequency : Option Frequency := none
  trend : Option String := none
  rawAnswer : Option String := none
deriving DecidableEq, Repr

/-- The tagged union of event variants of `schemas.py`.  `base` mirrors a
bare `BaseEvent`; its payload records the validated `event_type` value. -/
inductive Event where
  | symptom (env : Envelope) (measurements : List Measurement)
  | wellness (env : Envelope) (mood : Option Int) (anxiety : Option Int)
      (notes : Option String)
  | treatment (env : Envelope) (name : String) (description : Option String)
      (start_timestamp : Option String) (end_timestamp : Option String)
  | workflowResult (env : Envelope) (workflow_name : String)
      (route : TriageRoute) (patient_summary : Option String)
      (clinician_summary : Option String) (escalation_trigger : Option String)
      (safety_flags : List String)
  | lifestyle (env : Envelope) (name : String) (category : LifestyleCategory)
      (description : Option String) (notes : Option String)
  | base (env : Envelope) (event_type : EventType)
deriving DecidableEq, Repr

/-- The envelope of an event. -/
def Event.env : Event → Envelope
  | .symptom e _ => e
  | .wellness e _ _ _ => e
  | .treatment e _ _ _ _ => e
  | .workflowResult e _ _ _ _ _ _ => e
  | .lifestyle e _ _ _ _ => e
  | .base e _ => e

/-- `event.id`. -/
def Event.id (e : Event) : String := e.env.id

/-- `event.timestamp`. -/
def Event.timestamp (e : Event) : String := e.env.timestamp

/-- `event.event_type`, the discriminator value carried by the object. -/
def Event.eventType : Event → EventType
  | .symptom _ _ => .symptom
  | .wellness _ _ _ _ => .wellness
  | .treatment _ _ _ _ _ => .treatment
  | .workflowResult _ _ _ _ _ _ _ => .workflow_result
  | .lifestyle _ _ _ _ _ => .lifestyle
  | .base _ t => t

/-- Whether the event is a bare `BaseEvent` (not one of the five typed
variants). -/
def Event.isBase : Event → Bool
  | .base _ _ => true
  | _ => false

/-! ## Raw event records

`store.add_event` receives a plain dict and `store.load_data` reads one back
from the snapshot file; both feed it to the pydantic constructor chosen by
the `event_type` discriminator.  `Record` models that dict: a field holds
`none` when the key is absent (or is an explicit `None`, which pydantic
rejects for required fields just like absence). -/

/-- An incoming event dict, as passed to `add_event` or stored under
`events` in the snapshot document. -/
structure Record where
  id : Option String := none
  patient_id : Option String := none
  timestamp : Option String := none
  event_type : Option String := none
  measurements : Option (List MeasurementDoc) := none
  mood : Option Int := none
  anxiety : Option Int := none
  notes : Option String := none
  name : Option String := none
  description : Option String := none
  start_timestamp : Option String := none
  end_timestamp : Option String := none
  workflow_name : Option String := none
  route : Option String := none
  patient_summary : Option String := none
  clinician_summary : Option String := none
  escalation_trigger : Option String := none
  safety_flags : Option (List String) := none
  category : Option String := none
deriving DecidableEq, Repr

/-- Pydantic validation of one `SymptomMeasurement`: `name` is the only
required field. -/
def mkMeasurement (d : MeasurementDoc) : Except String Measurement :=
  match d.name with
  | none => .error "measurement: name field required"
  | some n =>
      .ok { name := n, severity := d.severity, frequency := d.frequency,
            trend := d.trend, rawAnswer := d.rawAnswer }

/-- Pydantic validation of the `measurements` list. -/
def mkMeasurements : List MeasurementDoc → Except String (List Measurement)
  | [] => .ok []
  | d :: rest =>
    match mkMeasurement d with
    | .error m => .error m
    | .ok x =>
      match mkMeasurements rest with
      | .error m => .error m
      | .ok xs => .ok (x :: xs)

/-- Pydantic validation of the required envelope fields `id`, `patient_id`
and `timestamp` shared by `BaseEvent` and every variant. -/
def mkEnvelope (r : Record) : Except String Envelope :=
  match r.id, r.patient_id, r.timestamp with
  | some i, some p, some t => .ok ⟨i, p, t⟩
  | _, _, _ => .error "envelope: field required"

/-- The typed-construction dispatch shared by `store.add_event`
(lines 236–247) and `store.load_data` (lines 45–56): the five known
`event_type` values select the matching pydantic variant constructor, and
anything else falls through to `BaseEvent(**record)` — whose own validation
requires `event_type` to be present and a valid `EventType` member. -/
def mkTypedEvent (r : Record) : Except String Event :=
  if r.event_type = some "symptom" then
    match mkEnvelope r with
    | .error m => .error m
    | .ok env =>
      match mkMeasurements (r.measurements.getD []) with
      | .error m => .error m
      | .ok ms => .ok (.symptom env ms)
  else if r.event_type = some "wellness" then
    match mkEnvelope r with
    | .error m => .error m
    | .ok env => .ok (.wellness env r.mood r.anxiety r.notes)
  else if r.event_type = some "treatment" then
    match mkEnvelope r with
    | .error m => .error m
    | .ok env =>
      match r.name with
      | none => .error "treatment: name field required"
      | some n =>
          .ok (.treatment env n r.description r.start_timestamp r.end_timestamp)
  else if r.event_type = some "workflow_result" then
    match mkEnvelope r with
    | .error m => .error m
    | .ok env =>
      match r.workflow_name, r.route with
      | some wn, some rt =>
        match parseRoute rt with
        | none => .error "route: value is not a valid enumeration member"
        | some route =>
            .ok (.workflowResult env wn route r.patient_summary
              r.clinician_summary r.escalation_trigger (r.safety_flags.getD []))
      | _, _ => .error "workflow_result: field required"
  else if r.event_type = some "lifestyle" then
    match mkEnvelope r with
    | .error m => .error m
    | .ok env =>
      match r.name with
      | none => .error "lifestyle: name field required"
      | some n =>
        match r.category with
        | none => .ok (.lifestyle env n .other r.description r.notes)
        | some c =>
          match parseCategory c with
          | none => .error "category: value is not a valid enumeration member"
          | some cat => .ok (.lifestyle env n cat r.description r.notes)
  else
    match r.event_type with
    | none => .error "event_type: field required"
    | some t =>
      match parseEventType t with
      | none => .error "event_type: value is not a valid enumeration member"
      | some ty =>
        match mkEnvelope r with
        | .error m => .error m
        | .ok env => .ok (.base env ty)

/-- Serialization of a measurement (`pydantic .dict()`). -/
def serializeMeasurement (m : Measurement) : MeasurementDoc :=
  { name := some m.name, severity := m.severity, frequency := m.frequency,
    trend := m.trend, rawAnswer := m.rawAnswer }

/-- Serialization of an event to its snapshot dict (`pydantic .dict()`,
then JSON via `json.dump`; `str`-enums serialize as their string values). -/
def serializeEvent (e : Event) : Record :=
  let base : Record :=
    { id := some e.env.id, patient_id := some e.env.patient_id,
      timestamp := some e.env.timestamp,
      event_type := some e.eventType.toTag }
  match e with
  | .symptom _ ms => { base with measurements := some (ms.map serializeMeasurement) }
  | .wellness _ mood anxiety notes =>
      { base with
        mood := mood, anxiety := anxiety, notes := notes }
  | .treatment _ n d st en =>
      { base with
        name := some n, description := d,
        start_timestamp := st, end_timestamp := en }
  | .workflowResult _ wn route ps cs et sf =>
      { base with
        workflow_name := some wn, route := some route.toTag,
        patient_summary := ps, clinician_summary := cs,
        escalation_trigger := et, safety_flags := some sf }
  | .lifestyle _ n cat d notes =>
      { base with
        name := some n, category := some cat.toTag,
        description := d, notes := notes }
  | .base _ _ => base

/-! ## Profiles, annotations, saved views, follow-up tasks

`PatientProfile` carries many demographic and clinical fields; all are
plain scalars or small sub-models that pydantic serializes and re-parses
symmetrically.  The model keeps a representative subset (`id`, `name`,
`age`, `cancer_type`, `stage`, `prognosis_preference`) — enough to make
every claim about profile identity, lookup and round-tripping contentful —
and elides the remaining scalar fields, which behave identically.

The annotation entities of `schemas.Annotation` are named `Annot…` here. -/

/-- `schemas.PatientProfile` (representative fields). -/
structure Profile where
  id : String := "default"
  name : String
  age : Int
  cancer_type : String
  stage : Option String := none
  prognosis_preference : String := "neutral"
deriving DecidableEq, Repr

/-- An incoming profile dict (snapshot form of `PatientProfile`). -/
structure ProfileDoc where
  id : Option String := none
  name : Option String := none
  age : Option Int := none
  cancer_type : Option String := none
  stage : Option String := none
  prognosis_preference : Option String := none
deriving DecidableEq, Repr

/-- Pydantic validation `PatientProfile(**doc)`: `name`, `age` and
`cancer_type` are required; `id` defaults to `"default"` and
`prognosis_preference` to `"neutral"`. -/
def mkProfile (d : ProfileDoc) : Except String Profile :=
  match d.name, d.age, d.cancer_type with
  | some n, some a, some c =>
      .ok { id := d.id.getD "default", name := n, age := a, cancer_type := c,
            stage := d.stage,
            prognosis_preference := d.prognosis_preference.getD "neutral" }
  | _, _, _ => .error "profile: field required"

/-- Serialization of a profile (`pydantic .dict()`). -/
def serializeProfile (p : Profile) : ProfileDoc :=
  { id := some p.id, name := some p.name, age := some p.age,
    cancer_type := some p.cancer_type, stage := p.stage,
    prognosis_preference := some p.prognosis_preference }

/-- `schemas.Annotation` (source name: `Annotation`). -/
structure Annot where
  id : String
  patient_id : String
  title : String
  start_timestamp : String
  end_timestamp : String
  text : Option String := none
  color : String := "#3b82f6"
  created_at : String
deriving DecidableEq, Repr

/-- An incoming annotation dict. -/
structure AnnotDoc where
  id : Option String := none
  patient_id : Option String := none
  title : Option String := none
  start_timestamp : Option String := none
  end_timestamp : Option String := none
  text : Option String := none
  color : Option String := none
  created_at : Option String := none
deriving DecidableEq, Repr

/-- Pydantic validation `Annotation(**doc)`. -/
def mkAnnot (d : AnnotDoc) : Except String Annot :=
  match d.id, d.patient_id, d.title, d.start_timestamp, d.end_timestamp,
      d.created_at with
  | some i, some p, some t, some st, some en, some c =>
      .ok { id := i, patient_id := p, title := t, start_timestamp := st,
            end_timestamp := en, text := d.text,
            color := d.color.getD "#3b82f6", created_at := c }
  | _, _, _, _, _, _ => .error "annotation record: field required"

/-- Serialization of an annotation. -/
def serializeAnnot (a : Annot) : AnnotDoc :=
  { id := some a.id, patient_id := some a.patient_id, title := some a.title,
    start_timestamp := some a.start_timestamp,
    end_timestamp := some a.end_timestamp, text := a.text,
    color := some a.color, created_at := some a.created_at }

/-- `schemas.ViewFilters` (all fields defaulted). -/
structure ViewFilters where
  symptoms : List String := []
  treatments : List String := []
  wellness : List String := []
  lifestyle : List String := []
  show_all_symptoms : Bool := true
  show_all_treatments : Bool := true
  show_all_wellness : Bool := true
  show_all_lifestyle : Bool := true
deriving DecidableEq, Repr

/-- An incoming `ViewFilters` dict. -/
structure ViewFiltersDoc where
  symptoms : Option (List String) := none
  treatments : Option (List String) := none
  wellness : Option (List String) := none
  lifestyle : Option (List String) := none
  show_all_symptoms : Option Bool := none
  show_all_treatments : Option Bool := none
  show_all_wellness : Option Bool := none
  show_all_lifestyle : Option Bool := none
deriving DecidableEq, Repr

/-- Pydantic validation `ViewFilters(**doc)` (never fails: every field has
a default). -/
def mkViewFilters (d : ViewFiltersDoc) : ViewFilters :=
  { symptoms := d.symptoms.getD [], treatments := d.treatments.getD [],
    wellness := d.wellness.getD [], lifestyle := d.lifestyle.getD [],
    show_all_symptoms := d.show_all_symptoms.getD true,
    show_all_treatments := d.show_all_treatments.getD true,
    show_all_wellness := d.show_all_wellness.getD true,
    show_all_lifestyle := d.show_all_lifestyle.getD true }

/-- Serialization of view filters. -/
def serializeViewFilters (f : ViewFilters) : ViewFiltersDoc :=
  { symptoms := some f.symptoms, treatments := some f.treatments,
    wellness := some f.wellness, lifestyle := some f.lifestyle,
    show_all_symptoms := some f.show_all_symptoms,
    show_all_treatments := some f.show_all_treatments,
    show_all_wellness := some f.show_all_wellness,
    show_all_lifestyle := some f.show_all_lifestyle }

/-- `schemas.SavedView`. -/
structure SavedView where
  id : String
  patient_id : String
  name : String
  filters : ViewFilters := {}
  chart_type : String := "line"
  created_at : String
deriving DecidableEq, Repr

/-- An incoming saved-view dict. -/
structure SavedViewDoc where
  id : Option String := none
  patient_id : Option String := none
  name : Option String := none
  filters : Option ViewFiltersDoc := none
  chart_type : Option String := none
  created_at : Option String := none
deriving DecidableEq, Repr

/-- Pydantic validation `SavedView(**doc)`. -/
def mkSavedView (d : SavedViewDoc) : Except String SavedView :=
  match d.id, d.patient_id, d.name, d.created_at with
  | some i, some p, some n, some c =>
      .ok { id := i, patient_id := p, name := n,
            filters := (d.filters.map mkViewFilters).getD {},
            chart_type := d.chart_type.getD "line", created_at := c }
  | _, _, _, _ => .error "saved view: field required"

/-- Serialization of a saved view. -/
def serializeSavedView (v : SavedView) : SavedViewDoc :=
  { id := some v.id, patient_id := some v.patient_id, name := some v.name,
    filters := some (serializeViewFilters v.filters),
    chart_type := some v.chart_type, created_at := some v.created_at }

/-- `schemas.AgentAnalysis` (representative fields: the required
`event_type` and `timestamp` plus a few optional scalars; the remaining
optional lists and sub-models are JSON-symmetric and never read by the
store). -/
structure AgentAnalysis where
  event_type : String
  timestamp : String
  chief_complaint : Option String := none
  mood : Option String := none
  goals : Option String := none
deriving DecidableEq, Repr

/-- An incoming `AgentAnalysis` dict. -/
structure AgentAnalysisDoc where
  event_type : Option String := none
  timestamp : Option String := none
  chief_complaint : Option String := none
  mood : Option String := none
  goals : Option String := none
deriving DecidableEq, Repr

/-- Pydantic validation `AgentAnalysis(**doc)`. -/
def mkAgentAnalysis (d : AgentAnalysisDoc) : Except String AgentAnalysis :=
  match d.event_type, d.timestamp with
  | some e, some t =>
      .ok { event_type := e, timestamp := t,
            chief_complaint := d.chief_complaint, mood := d.mood,
            goals := d.goals }
  | _, _ => .error "analysis: field required"

/-- Serialization of an `AgentAnalysis`. -/
def serializeAgentAnalysis (an : AgentAnalysis) : AgentAnalysisDoc :=
  { event_type := some an.event_type, timestamp := some an.timestamp,
    chief_complaint := an.chief_complaint, mood := an.mood,
    goals := an.goals }

/-- `schemas.AgentSession`. -/
structure AgentSession where
  id : String
  agent_type : String
  transcript : String
  analysis : Option AgentAnalysis := none
  created_at : String
deriving DecidableEq, Repr

/-- An incoming `AgentSession` dict. -/
structure SessionDoc where
  id : Option String := none
  agent_type : Option String := none
  transcript : Option String := none
  analysis : Option AgentAnalysisDoc := none
  created_at : Option String := none
deriving DecidableEq, Repr

/-- Pydantic validation `AgentSession(**doc)`. -/
def mkSession (d : SessionDoc) : Except String AgentSession :=
  match d.id, d.agent_type, d.transcript, d.created_at with
  | some i, some a, some t, some c =>
    match d.analysis with
    | none =>
        .ok { id := i, agent_type := a, transcript := t, analysis := none,
              created_at := c }
    | some ad =>
      match mkAgentAnalysis ad with
      | .error m => .error m
      | .ok an =>
          .ok { id := i, agent_type := a, transcript := t,
                analysis := some an, created_at := c }
  | _, _, _, _ => .error "session: field required"

/-- Serialization of an `AgentSession`. -/
def serializeSession (x : AgentSession) : SessionDoc :=
  { id := some x.id, agent_type := some x.agent_type,
    transcript := some x.transcript,
    analysis := x.analysis.map serializeAgentAnalysis,
    created_at := some x.created_at }

/-- `schemas.FollowupTask` (in-memory only; never persisted). -/
structure FollowupTask where
  id : String
  patient_id : String
  urgency : TaskUrgency := .routine
  summary : String
  context : Option String := none
  triggered_by : Option String := none
  assigned_to : Option String := none
  created_at : String
  status : TaskStatus := .pending
deriving DecidableEq, Repr

/-! ## Python dicts as insertion-ordered association lists -/

/-- A CPython dict keyed by strings: insertion-ordered association list. -/
abbrev AList (α : Type) := List (String × α)

/-- `d.get(key)` / `d[key]` lookup. -/
def alGet {α : Type} : AList α → String → Option α
  | [], _ => none
  | (k, v) :: rest, key => if k = key then some v else alGet rest key

/-- `d[key] = v`: replaces in place if present, otherwise appends (CPython
dicts keep the original slot of an existing key). -/
def alSet {α : Type} : AList α → String → α → AList α
  | [], key, v => [(key, v)]
  | (k, w) :: rest, key, v =>
      if k = key then (k, v) :: rest else (k, w) :: alSet rest key v

/-- `del d[key]` (no-op when the key is absent, matching the guarded
deletes in `store.py`). -/
def alDel {α : Type} : AList α → String → AList α
  | [], _ => []
  | (k, v) :: rest, key => if k = key then rest else (k, v) :: alDel rest key

/-! ## The store state and persistence (`store.py`)

`Store` is the in-memory state of a `PatientStore` plus a `disk` component
modelling the contents of `patient_data.json`.  The write in `save_data`
(lines 95–96) is `open(DATA_FILE, "w")` followed by `json.dump`: the
`open` truncates the file before anything is written, so an I/O failure
during the dump leaves a truncated or partially written file (`corrupt`
below), while a failure of `open` itself leaves the previous contents.
Which of the three outcomes occurs is an environment fact, passed to each
mutating operation as a `SaveOutcome`; since `save_data` has no exception
handler, either failure surfaces as `StoreErr.ioErr` from the operation
that attempted the write. -/

/-- The snapshot document layout written by `save_data`. -/
structure Snapshot where
  profiles : AList ProfileDoc
  sessions : List SessionDoc
  events : AList (List Record)
  annotations : AList (List AnnotDoc)
  saved_views : AList (List SavedViewDoc)
  active_profile_id : String
deriving DecidableEq, Repr

/-- The contents of `patient_data.json`: missing, one well-formed
snapshot document, or a truncated/partially written file left behind by a
failed dump. -/
inductive DiskFile where
  | absent
  | snapshotFile (d : Snapshot)
  | corrupt
deriving DecidableEq, Repr

/-- How a persistence write attempt turns out: success, `open` raising
(file untouched), or `json.dump` raising after `open` truncated the
file. -/
inductive SaveOutcome where
  | ok
  | failOpen
  | failWrite
deriving DecidableEq, Repr

/-- In-memory store state plus the persisted snapshot file. -/
structure Store where
  profiles : AList Profile := []
  active_profile_id : String := "default"
  sessions : List AgentSession := []
  events : AList (List Event) := []
  followup_tasks : AList (List FollowupTask) := []
  annotations : AList (List Annot) := []
  saved_views : AList (List SavedView) := []
  disk : DiskFile := .absent
deriving DecidableEq, Repr

/-- Errors surfaced by store operations: a pydantic/`ValueError`
validation failure, or an I/O error escaping `save_data`. -/
inductive StoreErr where
  | validation (msg : String)
  | ioErr
deriving DecidableEq, Repr

/-- The snapshot document `save_data` serializes from the current state. -/
def snapshotOf (s : Store) : Snapshot :=
  { profiles := s.profiles.map (fun kv => (kv.1, serializeProfile kv.2)),
    sessions := s.sessions.map serializeSession,
    events := s.events.map (fun kv => (kv.1, kv.2.map serializeEvent)),
    annotations := s.annotations.map (fun kv => (kv.1, kv.2.map serializeAnnot)),
    saved_views := s.saved_views.map (fun kv => (kv.1, kv.2.map serializeSavedView)),
    active_profile_id := s.active_profile_id }

/-- `PatientStore.save_data` (lines 74–96): serialize everything and
write the snapshot.  There is no `try`/`except` around the write: on
success the file holds the new snapshot; if `open` fails the file is
untouched; if the dump fails after `open` truncated the file, a
truncated/partial file remains.  Either failure propagates. -/
def save_data (io : SaveOutcome) (s : Store) : Except StoreErr Unit × Store :=
  match io with
  | .ok => (.ok (), { s with disk := .snapshotFile (snapshotOf s) })
  | .failOpen => (.error .ioErr, s)
  | .failWrite => (.error .ioErr, { s with disk := .corrupt })

/-- `Except`-valued map over the values of an association list. -/
def alMapM {α β : Type} (f : α → Except String β) :
    AList α → Except String (AList β)
  | [] => .ok []
  | (k, v) :: rest =>
    match f v with
    | .error m => .error m
    | .ok w =>
      match alMapM f rest with
      | .error m => .error m
      | .ok ws => .ok ((k, w) :: ws)

/-- `Except`-valued map over a plain list. -/
def listMapM {α β : Type} (f : α → Except String β) :
    List α → Except String (List β)
  | [] => .ok []
  | v :: rest =>
    match f v with
    | .error m => .error m
    | .ok w =>
      match listMapM f rest with
      | .error m => .error m
      | .ok ws => .ok (w :: ws)

/-- `PatientStore.load_data`, success path: reconstruct a store from a
snapshot document.  Events are rebuilt through the same
discriminator-dispatched constructors as `add_event` (`mkTypedEvent`);
follow-up tasks are not in the snapshot and come back empty.  (The Python
wraps the body in `try`/`except` and keeps whatever was partially loaded
on failure; only the success path is needed by the claims.) -/
def loadSnapshot (d : Snapshot) : Except String Store :=
  match alMapM mkProfile d.profiles with
  | .error m => .error m
  | .ok profiles =>
    match listMapM mkSession d.sessions with
    | .error m => .error m
    | .ok sessions =>
      match alMapM (listMapM mkTypedEvent) d.events with
      | .error m => .error m
      | .ok events =>
        match alMapM (listMapM mkAnnot) d.annotations with
        | .error m => .error m
        | .ok annotations =>
          match alMapM (listMapM mkSavedView) d.saved_views with
          | .error m => .error m
          | .ok saved_views =>
            .ok { profiles := profiles,
                  active_profile_id := d.active_profile_id,
                  sessions := sessions,
                  events := events, followup_tasks := [],
                  annotations := annotations, saved_views := saved_views,
                  disk := .snapshotFile d }

/-! ## Store operations (`store.py`)

Each method is translated with explicit state passing: it consumes the
store (the `self` before the call) and returns its result together with
the store after the call.  Mutators thread `io` into `save_data` and
surface its failure exactly where Python would raise. -/

/-- Comparator of `sorted(events, key=lambda x: x.timestamp, reverse=True)`:
`a` may precede `b` iff `b.timestamp <= a.timestamp` lexicographically. -/
def tsDescLe (a b : Event) : Bool := strLe b.timestamp a.timestamp

/-- `PatientStore.get_profile`. -/
def get_profile (profile_id : String) (s : Store) : Option Profile × Store :=
  (alGet s.profiles profile_id, s)

/-- `PatientStore.get_active_profile`. -/
def get_active_profile (s : Store) : Option Profile × Store :=
  (alGet s.profiles s.active_profile_id, s)

/-- `PatientStore.list_profiles`. -/
def list_profiles (s : Store) : List Profile × Store :=
  (s.profiles.map Prod.snd, s)

/-- `PatientStore.get_events` (lines 253–256): missing patient yields `[]`,
result is a fresh list sorted by timestamp descending. -/
def get_events (patient_id : String) (s : Store) : List Event × Store :=
  (sortBy tsDescLe ((alGet s.events patient_id).getD []), s)

/-- Result of `dateutil.parser.parse`: a timezone-naive timestamp value (a
point on a linear time scale, in seconds) plus the utc offset if the string
carried one.  The parser itself is external library code, so it enters the
model as an opaque function. -/
structure ParsedTime where
  naive : Int
  tz : Option Int := none
deriving DecidableEq, Repr

/-- An opaque stand-in for `dateutil.parser.parse`: `none` models a parse
failure (the `ValueError`/`TypeError` caught in `get_recent_events`). -/
abbrev DateParser := String → Option ParsedTime

/-- The inclusion test of `get_recent_events` (lines 291–302): parse the
timestamp, strip (not convert) any timezone offset by keeping only the
naive component, compare against the cutoff, then apply the optional type
filter; parse failure silently excludes the event. -/
def recentPred (dp : DateParser) (cutoff : Int)
    (event_types : Option (List EventType)) (e : Event) : Bool :=
  match dp e.timestamp with
  | none => false
  | some t =>
    if cutoff ≤ t.naive then
      match event_types with
      | none => true
      | some tys => tys.contains e.eventType
    else false

/-- `PatientStore.get_recent_events` (lines 267–304): `now` models
`datetime.utcnow()`; the cutoff is `now` minus `window_hours` hours. -/
def get_recent_events (dp : DateParser) (now : Int) (patient_id : String)
    (window_hours : Int) (event_types : Option (List EventType))
    (s : Store) : List Event × Store :=
  let events := (alGet s.events patient_id).getD []
  let cutoff := now - window_hours * 3600
  let filtered := events.filter (recentPred dp cutoff event_types)
  (sortBy tsDescLe filtered, s)

/-- The urgency rank of `get_followup_tasks`:
`urgency_order = {"stat": 0, "urgent": 1, "routine": 2}` (the `.get`
default 99 is unreachable since the enum is closed). -/
def urgencyRank : TaskUrgency → Nat
  | .stat => 0
  | .urgent => 1
  | .routine => 2

/-- Comparator of the urgency sort in `get_followup_tasks`. -/
def urgLe (a b : FollowupTask) : Bool :=
  decide (urgencyRank a.urgency ≤ urgencyRank b.urgency)

/-- The status filter of `get_followup_tasks`. -/
def statusMatches (status : Option TaskStatus) (t : FollowupTask) : Bool :=
  match status with
  | none => true
  | some st => decide (t.status = st)

/-- `PatientStore.get_followup_tasks` (lines 320–342). -/
def get_followup_tasks (patient_id : String) (status : Option TaskStatus)
    (s : Store) : List FollowupTask × Store :=
  let tasks := (alGet s.followup_tasks patient_id).getD []
  let tasks := tasks.filter (statusMatches status)
  (sortBy urgLe tasks, s)

/-- `PatientStore.get_annotations` (source name: `get_annotations`). -/
def get_annotations (patient_id : String) (s : Store) : List Annot × Store :=
  ((alGet s.annotations patient_id).getD [], s)

/-- `PatientStore.get_saved_views`. -/
def get_saved_views (patient_id : String) (s : Store) : List SavedView × Store :=
  ((alGet s.saved_views patient_id).getD [], s)

/-- `PatientStore.add_event` (lines 226–251): reject a missing or empty
`patient_id` (`if not patient_id`), create the patient's event list on
demand, construct the typed event, append it, then persist. -/
def add_event (io : SaveOutcome) (r : Record) (s : Store) :
    Except StoreErr Event × Store :=
  match r.patient_id with
  | none => (.error (.validation "Patient ID required"), s)
  | some pid =>
    if pid = "" then (.error (.validation "Patient ID required"), s)
    else
      let s1 : Store :=
        if (alGet s.events pid).isSome then s
        else { s with events := alSet s.events pid [] }
      match mkTypedEvent r with
      | .error msg => (.error (.validation msg), s1)
      | .ok ev =>
        let s2 : Store :=
          { s1 with
            events := alSet s1.events pid (((alGet s1.events pid).getD []) ++ [ev]) }
        match save_data io s2 with
        | (.error e, s3) => (.error e, s3)
        | (.ok _, s3) => (.ok ev, s3)

/-- Remove the first event with the given id from a list
(`events.pop(i)` at the first index where `event.id == event_id`);
`none` when there is no match. -/
def eraseFirstById (event_id : String) : List Event → Option (List Event)
  | [] => none
  | e :: rest =>
    if e.id = event_id then some rest
    else (eraseFirstById event_id rest).map (e :: ·)

/-- The scan of `delete_event` over `self._events.items()`: patients in
insertion order, the first matching event is removed in place. -/
def deleteEventScan (event_id : String) :
    AList (List Event) → Option (AList (List Event))
  | [] => none
  | (pid, es) :: rest =>
    match eraseFirstById event_id es with
    | some es2 => some ((pid, es2) :: rest)
    | none => (deleteEventScan event_id rest).map ((pid, es) :: ·)

/-- `PatientStore.delete_event` (lines 258–265): linear scan, remove first
match, persist only on success, report whether a removal occurred. -/
def delete_event (io : SaveOutcome) (event_id : String) (s : Store) :
    Except StoreErr Bool × Store :=
  match deleteEventScan event_id s.events with
  | none => (.ok false, s)
  | some evs =>
    let s1 := { s with events := evs }
    match save_data io s1 with
    | (.error e, s2) => (.error e, s2)
    | (.ok _, s2) => (.ok true, s2)

/-- The profile `create_new_profile` synthesizes.  The Python samples
demographics and clinical fields with `random.choice`/`random.randint`;
no claim depends on the sampled values, so the model fixes one
representative draw and keeps the control flow (id assignment, insertion,
activation, event-list initialisation, persistence) exact. -/
def generatedProfile (name : String) (new_id : String) : Profile :=
  { id := new_id, name := name, age := 65,
    cancer_type := "Lung Adenocarcinoma", stage := some "IIIA",
    prognosis_preference := "neutral" }

/-- `PatientStore.create_new_profile` (lines 137–191): `uuid` stands for
the `uuid.uuid4()` draw used when `is_default` is false. -/
def create_new_profile (uuid : String) (io : SaveOutcome) (name : String)
    (is_default : Bool) (s : Store) : Except StoreErr Profile × Store :=
  let new_id := if is_default then "default" else uuid
  let profile := generatedProfile name new_id
  let s1 : Store :=
    { s with
      profiles := alSet s.profiles new_id profile,
      active_profile_id := new_id,
      events := alSet s.events new_id [] }
  match save_data io s1 with
  | (.error e, s2) => (.error e, s2)
  | (.ok _, s2) => (.ok profile, s2)

/-- `PatientStore.delete_profile` (lines 108–124): drop the profile and
its events; if it was active, re-point to the first remaining profile or
bootstrap a fresh default; persist and report success. -/
def delete_profile (uuid : String) (io : SaveOutcome) (profile_id : String)
    (s : Store) : Except StoreErr Bool × Store :=
  match alGet s.profiles profile_id with
  | none => (.ok false, s)
  | some _ =>
    let s1 : Store :=
      { s with
        profiles := alDel s.profiles profile_id,
        events := alDel s.events profile_id }
    if s1.active_profile_id = profile_id then
      match s1.profiles with
      | (k, _) :: _ =>
        let s2 := { s1 with active_profile_id := k }
        match save_data io s2 with
        | (.error e, s3) => (.error e, s3)
        | (.ok _, s3) => (.ok true, s3)
      | [] =>
        match create_new_profile uuid io "John Doe" true s1 with
        | (.error e, s2) => (.error e, s2)
        | (.ok _, s2) =>
          match save_data io s2 with
          | (.error e, s3) => (.error e, s3)
          | (.ok _, s3) => (.ok true, s3)
    else
      match save_data io s1 with
      | (.error e, s2) => (.error e, s2)
      | (.ok _, s2) => (.ok true, s2)

/-- `PatientStore.add_followup_task` (lines 308–318): in-memory only, no
persistence write. -/
def add_followup_task (t : FollowupTask) (s : Store) :
    FollowupTask × Store :=
  let pid := t.patient_id
  (t, { s with
        followup_tasks := alSet s.followup_tasks pid
          (((alGet s.followup_tasks pid).getD []) ++ [t]) })

/-! ## Helper lemmas about the comparators -/

theorem tsDescLe_total (a b : Event) : tsDescLe a b || tsDescLe b a :=
  strLe_total b.timestamp a.timestamp

theorem tsDescLe_trans (a b c : Event) :
    tsDescLe a b = true → tsDescLe b c = true → tsDescLe a c = true :=
  fun h1 h2 => strLe_trans c.timestamp b.timestamp a.timestamp h2 h1

theorem urgLe_total (a b : FollowupTask) : urgLe a b || urgLe b a := by
  unfold urgLe
  rcases Nat.le_total (urgencyRank a.urgency) (urgencyRank b.urgency) with h | h
  · simp [h]
  · simp [h]

theorem urgLe_trans (a b c : FollowupTask) :
    urgLe a b = true → urgLe b c = true → urgLe a c = true := by
  unfold urgLe
  simp only [decide_eq_true_eq]
  exact Nat.le_trans

/-! ## C2 -/

/-- C2: for every store state (hence after any sequence of `add_event`
calls in any order), `get_events(P)` returns a permutation of the stored
events of `P`, sorted by timestamp descending under lexicographic
comparison of the ISO-8601 timestamp strings; an unknown patient id
yields the empty list (the read is total — it never raises). -/
theorem get_events_spec (s : Store) (p : String) :
    ((get_events p s).1).Pairwise
      (fun a b => strLe b.timestamp a.timestamp = true)
    ∧ List.Perm ((get_events p s).1) ((alGet s.events p).getD [])
    ∧ (alGet s.events p = none → (get_events p s).1 = []) := by
  refine ⟨?_, ?_, ?_⟩
  · exact pairwise_sortBy tsDescLe tsDescLe_total tsDescLe_trans _
  · exact perm_sortBy _ _
  · intro h
    simp [get_events, h, sortBy]

/-- Witness for C2 at a concrete input. -/
theorem get_events_spec_witness :
    ((get_events "p0" {}).1).Pairwise
      (fun a b => strLe b.timestamp a.timestamp = true)
    ∧ List.Perm ((get_events "p0" {}).1)
        ((alGet (Store.events {}) "p0").getD [])
    ∧ (alGet (Store.events {}) "p0" = none → (get_events "p0" {}).1 = []) :=
  get_events_spec {} "p0"

/-! ## C9 -/

/-- C9: `get_followup_tasks` returns exactly the patient's tasks that
match the status filter (all of them when no filter is given), sorted by
the fixed total urgency order `stat < urgent < routine` with `stat`
first. -/
theorem get_followup_tasks_spec (s : Store) (p : String)
    (st : Option TaskStatus) :
    List.Perm ((get_followup_tasks p st s).1)
      (((alGet s.followup_tasks p).getD []).filter (statusMatches st))
    ∧ ((get_followup_tasks p st s).1).Pairwise
        (fun a b => urgencyRank a.urgency ≤ urgencyRank b.urgency)
    ∧ urgencyRank .stat < urgencyRank .urgent
    ∧ urgencyRank .urgent < urgencyRank .routine
    ∧ (∀ t ∈ (get_followup_tasks p st s).1, statusMatches st t = true)
    ∧ (st = none →
        List.Perm ((get_followup_tasks p st s).1)
          ((alGet s.followup_tasks p).getD [])) := by
  refine ⟨perm_sortBy _ _, ?_, by decide, by decide, ?_, ?_⟩
  · have h := pairwise_sortBy urgLe urgLe_total urgLe_trans
      (((alGet s.followup_tasks p).getD []).filter (statusMatches st))
    exact h.imp (fun hab => by
      have := hab
      simpa [urgLe, decide_eq_true_eq] using this)
  · intro t ht
    have hmem := (perm_sortBy urgLe _).mem_iff.mp ht
    exact (List.mem_filter.mp hmem).2
  · intro h
    subst h
    have : (((alGet s.followup_tasks p).getD []).filter (statusMatches none))
        = (alGet s.followup_tasks p).getD [] := by
      simp [statusMatches]
    rw [get_followup_tasks]
    simpa [this] using perm_sortBy urgLe ((alGet s.followup_tasks p).getD [])

/-- Witness for C9 at a concrete input. -/
theorem get_followup_tasks_spec_witness :
    List.Perm ((get_followup_tasks "p0" none {}).1)
      (((alGet (Store.followup_tasks {}) "p0").getD []).filter
        (statusMatches none))
    ∧ ((get_followup_tasks "p0" none {}).1).Pairwise
        (fun a b => urgencyRank a.urgency ≤ urgencyRank b.urgency)
    ∧ urgencyRank .stat < urgencyRank .urgent
    ∧ urgencyRank .urgent < urgencyRank .routine
    ∧ (∀ t ∈ (get_followup_tasks "p0" none {}).1,
        statusMatches none t = true)
    ∧ (none = (none : Option TaskStatus) →
        List.Perm ((get_followup_tasks "p0" none {}).1)
          ((alGet (Store.followup_tasks {}) "p0").getD [])) :=
  get_followup_tasks_spec {} "p0" none

/-! ## C1 -/

/-- C1: `get_recent_events(P, W, T)` returns exactly those stored events
of `P` accepted by the window predicate — the timestamp parses (an
unparseable timestamp silently excludes the event, never raising), the
parsed time with any timezone offset stripped (its naive component, the
offset being discarded rather than converted) is at or after
`now − W` hours, and the event type is in `T` when `T` is given — and the
result is sorted by timestamp descending.  The second conjunct unfolds the
predicate to exactly that condition; the last restates the spec bound
`now − timestamp ≤ W` for every returned event. -/
theorem get_recent_events_spec (dp : DateParser) (now : Int) (s : Store)
    (p : String) (W : Int) (tys : Option (List EventType)) :
    List.Perm ((get_recent_events dp now p W tys s).1)
      (((alGet s.events p).getD []).filter
        (recentPred dp (now - W * 3600) tys))
    ∧ (∀ e, recentPred dp (now - W * 3600) tys e = true ↔
        ∃ t, dp e.timestamp = some t ∧ now - W * 3600 ≤ t.naive ∧
          ∀ l, tys = some l → e.eventType ∈ l)
    ∧ ((get_recent_events dp now p W tys s).1).Pairwise
        (fun a b => strLe b.timestamp a.timestamp = true)
    ∧ (∀ e ∈ (get_recent_events dp now p W tys s).1,
        ∃ t, dp e.timestamp = some t ∧ now - W * 3600 ≤ t.naive) := by
  refine ⟨perm_sortBy _ _, ?_, ?_, ?_⟩
  · intro e
    cases hdp : dp e.timestamp with
    | none => simp [recentPred, hdp]
    | some t =>
      by_cases hcut : now - W * 3600 ≤ t.naive
      · cases tys with
        | none =>
          simp [recentPred, hdp, hcut]
          omega
        | some l =>
          simp [recentPred, hdp, hcut]
          intro _
          omega
      · simp [recentPred, hdp, hcut]
        intro h
        exact absurd (show now - W * 3600 ≤ t.naive by omega) hcut
  · exact pairwise_sortBy tsDescLe tsDescLe_total tsDescLe_trans _
  · intro e he
    have hmem := (perm_sortBy tsDescLe _).mem_iff.mp he
    have hp := (List.mem_filter.mp hmem).2
    cases hdp : dp e.timestamp with
    | none => simp [recentPred, hdp] at hp
    | some t =>
      by_cases hcut : now - W * 3600 ≤ t.naive
      · exact ⟨t, rfl, hcut⟩
      · simp [recentPred, hdp, hcut] at hp

/-- Witness for C1 at a concrete input. -/
theorem get_recent_events_spec_witness :
    List.Perm ((get_recent_events (fun _ => none) 0 "p0" 24 none {}).1)
      (((alGet (Store.events {}) "p0").getD []).filter
        (recentPred (fun _ => none) (0 - 24 * 3600) none))
    ∧ (∀ e, recentPred (fun _ => none) (0 - 24 * 3600) none e = true ↔
        ∃ t, (fun (_ : String) => (none : Option ParsedTime)) e.timestamp = some t
          ∧ 0 - 24 * 3600 ≤ t.naive ∧
          ∀ l, (none : Option (List EventType)) = some l → e.eventType ∈ l)
    ∧ (((get_recent_events (fun _ => none) 0 "p0" 24 none {}).1).Pairwise
        (fun a b => strLe b.timestamp a.timestamp = true))
    ∧ (∀ e ∈ (get_recent_events (fun _ => none) 0 "p0" 24 none {}).1,
        ∃ t, (fun (_ : String) => (none : Option ParsedTime)) e.timestamp = some t
          ∧ 0 - 24 * 3600 ≤ t.naive) :=
  get_recent_events_spec (fun _ => none) 0 {} "p0" 24 none

/-! ## C10 -/

/-- C10: every read operation of the store — `get_profile`,
`get_active_profile`, `list_profiles`, `get_events`, `get_recent_events`,
`get_followup_tasks`, `get_annotations`, `get_saved_views` — leaves the
entire store state (including every stored per-patient list, hence its
insertion order, and the persisted snapshot) unchanged: the sorted or
filtered results are freshly built lists. -/
theorem reads_leave_store_unchanged :
    (∀ s pid, (get_profile pid s).2 = s)
    ∧ (∀ s, (get_active_profile s).2 = s)
    ∧ (∀ s, (list_profiles s).2 = s)
    ∧ (∀ s pid, (get_events pid s).2 = s)
    ∧ (∀ dp now pid w tys s, (get_recent_events dp now pid w tys s).2 = s)
    ∧ (∀ s pid st, (get_followup_tasks pid st s).2 = s)
    ∧ (∀ s pid, (get_annotations pid s).2 = s)
    ∧ (∀ s pid, (get_saved_views pid s).2 = s) :=
  ⟨fun _ _ => rfl, fun _ => rfl, fun _ => rfl, fun _ _ => rfl,
   fun _ _ _ _ _ _ => rfl, fun _ _ _ => rfl, fun _ _ => rfl, fun _ _ => rfl⟩

/-! ## Characterizing `add_event` validation (C3, C7) -/

/-- The envelope requirements of every pydantic event constructor: `id`,
`patient_id` and `timestamp` must be present. -/
def EnvOk (r : Record) : Prop :=
  r.id ≠ none ∧ r.patient_id ≠ none ∧ r.timestamp ≠ none

/-- The per-variant requirements actually enforced by the pydantic models
of `schemas.py` for the declared discriminator: Symptom accepts any list
of measurements (including none at all) as long as each one given has a
name; Wellness requires nothing beyond the envelope (mood and anxiety are
optional); Treatment requires `name`; WorkflowResult requires
`workflow_name` and a valid `route`; Lifestyle requires `name` and a valid
`category` when one is given; any other (or missing) discriminator is
rejected by the `BaseEvent` fallback itself. -/
def VariantOk (r : Record) : Prop :=
  (r.event_type = some "symptom" ∧ ∀ d ∈ r.measurements.getD [], d.name ≠ none)
  ∨ r.event_type = some "wellness"
  ∨ (r.event_type = some "treatment" ∧ r.name ≠ none)
  ∨ (r.event_type = some "workflow_result" ∧ r.workflow_name ≠ none
      ∧ ∃ rt, r.route = some rt ∧ parseRoute rt ≠ none)
  ∨ (r.event_type = some "lifestyle" ∧ r.name ≠ none
      ∧ ∀ c, r.category = some c → parseCategory c ≠ none)

/-- The full acceptance condition of `add_event`: a non-empty `patient_id`
(the store's own `if not patient_id` check), the envelope fields, and the
declared variant's requirements. -/
def AddOk (r : Record) : Prop :=
  (∃ pid, r.patient_id = some pid ∧ pid ≠ "") ∧ EnvOk r ∧ VariantOk r

theorem mkEnvelope_ok_iff (r : Record) :
    (∃ env, mkEnvelope r = .ok env) ↔ EnvOk r := by
  rcases hI : r.id with _ | i <;> rcases hP : r.patient_id with _ | q <;>
    rcases hT : r.timestamp with _ | t <;>
      simp [mkEnvelope, EnvOk, hI, hP, hT]

theorem mkMeasurements_ok_iff (ds : List MeasurementDoc) :
    (∃ ms, mkMeasurements ds = .ok ms) ↔ ∀ d ∈ ds, d.name ≠ none := by
  induction ds with
  | nil => simp [mkMeasurements]
  | cons d rest ih =>
    cases hn : d.name with
    | none => simp [mkMeasurements, mkMeasurement, hn]
    | some n =>
      cases hrest : mkMeasurements rest with
      | error m =>
        have hne : ¬ ∀ d2 ∈ rest, d2.name ≠ none := by
          intro hall
          rcases ih.mpr hall with ⟨ms, hms⟩
          rw [hrest] at hms
          exact Except.noConfusion hms
        simp [mkMeasurements, mkMeasurement, hn, hrest, hne]
      | ok xs =>
        have hall : ∀ d2 ∈ rest, d2.name ≠ none := ih.mp ⟨xs, hrest⟩
        simp [mkMeasurements, mkMeasurement, hn, hrest]
        exact hall

theorem parseEventType_toTag (t : String) (ty : EventType) :
    parseEventType t = some ty → t = ty.toTag := by
  unfold parseEventType
  by_cases h1 : t = "symptom"
  · simp only [if_pos h1]
    intro h; cases h; exact h1
  by_cases h2 : t = "wellness"
  · simp only [if_neg h1, if_pos h2]
    intro h; cases h; exact h2
  by_cases h3 : t = "treatment"
  · simp only [if_neg h1, if_neg h2, if_pos h3]
    intro h; cases h; exact h3
  by_cases h4 : t = "workflow_result"
  · simp only [if_neg h1, if_neg h2, if_neg h3, if_pos h4]
    intro h; cases h; exact h4
  by_cases h5 : t = "lifestyle"
  · simp only [if_neg h1, if_neg h2, if_neg h3, if_neg h4, if_pos h5]
    intro h; cases h; exact h5
  · simp [if_neg h1, if_neg h2, if_neg h3, if_neg h4, if_neg h5]

theorem mkEnvelope_error_of_not (r : Record) (h : ¬ EnvOk r) :
    ∃ m, mkEnvelope r = .error m := by
  cases henv : mkEnvelope r with
  | error m => exact ⟨m, rfl⟩
  | ok env => exact absurd ((mkEnvelope_ok_iff r).mp ⟨env, henv⟩) h

theorem parseEventType_none_of_not_five (t : String)
    (h1 : ¬ t = "symptom") (h2 : ¬ t = "wellness") (h3 : ¬ t = "treatment")
    (h4 : ¬ t = "workflow_result") (h5 : ¬ t = "lifestyle") :
    parseEventType t = none := by
  cases hpt : parseEventType t with
  | none => rfl
  | some ty =>
    exfalso
    have ht := parseEventType_toTag t ty hpt
    cases ty
    · exact h1 ht
    · exact h2 ht
    · exact h3 ht
    · exact h4 ht
    · exact h5 ht

theorem mkTypedEvent_ok_iff (r : Record) :
    (∃ e, mkTypedEvent r = .ok e) ↔ EnvOk r ∧ VariantOk r := by
  by_cases h1 : r.event_type = some "symptom"
  · simp only [mkTypedEvent, if_pos h1]
    by_cases hE : EnvOk r
    · rcases (mkEnvelope_ok_iff r).mpr hE with ⟨env, henv⟩
      rw [henv]
      cases hms : mkMeasurements (r.measurements.getD []) with
      | error m =>
        have hnot : ¬ ∀ d ∈ r.measurements.getD [], d.name ≠ none := by
          intro hall
          rcases (mkMeasurements_ok_iff _).mpr hall with ⟨ms, h⟩
          rw [hms] at h
          exact Except.noConfusion h
        simp [hE, VariantOk, h1, hnot]
      | ok ms =>
        have hall := (mkMeasurements_ok_iff _).mp ⟨ms, hms⟩
        simp [hE, VariantOk, h1]
        exact hall
    · rcases mkEnvelope_error_of_not r hE with ⟨m, hm⟩
      rw [hm]
      simp [hE]
  · by_cases h2 : r.event_type = some "wellness"
    · simp only [mkTypedEvent, if_neg h1, if_pos h2]
      by_cases hE : EnvOk r
      · rcases (mkEnvelope_ok_iff r).mpr hE with ⟨env, henv⟩
        rw [henv]
        simp [hE, VariantOk, h2]
      · rcases mkEnvelope_error_of_not r hE with ⟨m, hm⟩
        rw [hm]
        simp [hE]
    · by_cases h3 : r.event_type = some "treatment"
      · simp only [mkTypedEvent, if_neg h1, if_neg h2, if_pos h3]
        by_cases hE : EnvOk r
        · rcases (mkEnvelope_ok_iff r).mpr hE with ⟨env, henv⟩
          rw [henv]
          cases hn : r.name with
          | none => simp [hE, VariantOk, h3, hn]
          | some n => simp [hE, VariantOk, h3, hn]
        · rcases mkEnvelope_error_of_not r hE with ⟨m, hm⟩
          rw [hm]
          simp [hE]
      · by_cases h4 : r.event_type = some "workflow_result"
        · simp only [mkTypedEvent, if_neg h1, if_neg h2, if_neg h3, if_pos h4]
          by_cases hE : EnvOk r
          · rcases (mkEnvelope_ok_iff r).mpr hE with ⟨env, henv⟩
            rw [henv]
            cases hw : r.workflow_name with
            | none => simp [hE, VariantOk, h4, hw]
            | some wn =>
              cases hrt : r.route with
              | none => simp [hE, VariantOk, h4, hw, hrt]
              | some rt =>
                cases hpr : parseRoute rt with
                | none => simp [hE, VariantOk, h4, hw, hrt, hpr]
                | some route => simp [hE, VariantOk, h4, hw, hrt, hpr]
          · rcases mkEnvelope_error_of_not r hE with ⟨m, hm⟩
            rw [hm]
            simp [hE]
        · by_cases h5 : r.event_type = some "lifestyle"
          · simp only [mkTypedEvent, if_neg h1, if_neg h2, if_neg h3,
              if_neg h4, if_pos h5]
            by_cases hE : EnvOk r
            · rcases (mkEnvelope_ok_iff r).mpr hE with ⟨env, henv⟩
              rw [henv]
              cases hn : r.name with
              | none => simp [hE, VariantOk, h5, hn]
              | some n =>
                cases hc : r.category with
                | none => simp [hE, VariantOk, h5, hn, hc]
                | some c =>
                  cases hpc : parseCategory c with
                  | none => simp [hE, VariantOk, h5, hn, hc, hpc]
                  | some cat => simp [hE, VariantOk, h5, hn, hc, hpc]
            · rcases mkEnvelope_error_of_not r hE with ⟨m, hm⟩
              rw [hm]
              simp [hE]
          · simp only [mkTypedEvent, if_neg h1, if_neg h2, if_neg h3,
              if_neg h4, if_neg h5]
            cases hET : r.event_type with
            | none => simp [VariantOk, hET]
            | some t =>
              have ht1 : ¬ t = "symptom" := fun h => h1 (by rw [hET, h])
              have ht2 : ¬ t = "wellness" := fun h => h2 (by rw [hET, h])
              have ht3 : ¬ t = "treatment" := fun h => h3 (by rw [hET, h])
              have ht4 : ¬ t = "workflow_result" := fun h => h4 (by rw [hET, h])
              have ht5 : ¬ t = "lifestyle" := fun h => h5 (by rw [hET, h])
              dsimp only
              rw [parseEventType_none_of_not_five t ht1 ht2 ht3 ht4 ht5]
              simp [VariantOk, hET, ht1, ht2, ht3, ht4, ht5]

/-- A successfully constructed event is a typed variant (never the bare
base envelope) whose discriminator value matches the record's. -/
theorem mkTypedEvent_ok_variant (r : Record) (e : Event) :
    mkTypedEvent r = .ok e →
    e.isBase = false ∧ r.event_type = some e.eventType.toTag := by
  intro h
  unfold mkTypedEvent at h
  split at h
  case isTrue h1 =>
    split at h
    · exact Except.noConfusion h
    · split at h
      · exact Except.noConfusion h
      · cases h
        exact ⟨rfl, h1⟩
  case isFalse h1 =>
    split at h
    case isTrue h2 =>
      split at h
      · exact Except.noConfusion h
      · cases h
        exact ⟨rfl, h2⟩
    case isFalse h2 =>
      split at h
      case isTrue h3 =>
        split at h
        · exact Except.noConfusion h
        · split at h
          · exact Except.noConfusion h
          · cases h
            exact ⟨rfl, h3⟩
      case isFalse h3 =>
        split at h
        case isTrue h4 =>
          split at h
          · exact Except.noConfusion h
          · split at h
            · split at h
              · exact Except.noConfusion h
              · cases h
                exact ⟨rfl, h4⟩
            · exact Except.noConfusion h
        case isFalse h4 =>
          split at h
          case isTrue h5 =>
            split at h
            · exact Except.noConfusion h
            · split at h
              · exact Except.noConfusion h
              · split at h
                · cases h
                  exact ⟨rfl, h5⟩
                · split at h
                  · exact Except.noConfusion h
                  · cases h
                    exact ⟨rfl, h5⟩
          case isFalse h5 =>
            split at h
            · exact Except.noConfusion h
            · rename_i t hET
              split at h
              · exact Except.noConfusion h
              · rename_i ty hpt
                exfalso
                have ht := parseEventType_toTag t ty hpt
                cases ty
                · exact h1 (by rw [hET, ht]; rfl)
                · exact h2 (by rw [hET, ht]; rfl)
                · exact h3 (by rw [hET, ht]; rfl)
                · exact h4 (by rw [hET, ht]; rfl)
                · exact h5 (by rw [hET, ht]; rfl)

/-! ## Association-list lemmas -/

theorem alGet_alSet_self {α : Type} (l : AList α) (k : String) (v : α) :
    alGet (alSet l k v) k = some v := by
  induction l with
  | nil => simp [alSet, alGet]
  | cons kv rest ih =>
    by_cases h : kv.1 = k
    · simp [alSet, alGet, h]
    · simp [alSet, alGet, h, ih]

theorem alGet_alSet_ne {α : Type} (l : AList α) (k q : String) (v : α)
    (h : ¬ q = k) :
    alGet (alSet l k v) q = alGet l q := by
  have hkq : ¬ k = q := fun hh => h hh.symm
  induction l with
  | nil => simp [alSet, alGet, hkq]
  | cons kv rest ih =>
    by_cases hk : kv.1 = k
    · simp [alSet, alGet, hk, hkq]
    · by_cases hq : kv.1 = q
      · simp [alSet, alGet, hk, hq, h]
      · simp [alSet, alGet, hk, hq, ih]

theorem alGet_alDel_ne {α : Type} (l : AList α) (k q : String)
    (h : ¬ q = k) :
    alGet (alDel l k) q = alGet l q := by
  have hkq : ¬ k = q := fun hh => h hh.symm
  induction l with
  | nil => simp [alDel]
  | cons kv rest ih =>
    by_cases hk : kv.1 = k
    · simp [alDel, alGet, hk, hkq]
    · by_cases hq : kv.1 = q
      · simp [alDel, alGet, hk, hq, h]
      · simp [alDel, alGet, hk, hq, ih]

/-! ## C3 -/

/-- C3 (amended): `add_event` fails with a validation error exactly when
the record is rejected by `AddOk` — that is, when `patient_id` is missing
or empty, when an envelope field (`id`, `timestamp`) is missing, or when
the declared variant's pydantic requirements fail (each given Symptom
measurement needs a name, though the measurements list itself may be empty
or absent; Wellness needs nothing beyond the envelope, mood and anxiety
being optional; Treatment needs `name`; WorkflowResult needs
`workflow_name` and a valid `route`; Lifestyle needs `name` and a valid
`category` when given; a missing or unknown discriminator is rejected by
the base-envelope fallback).  On such a failure no event is appended (every
patient's `get_events` view is unchanged) and the profiles, the follow-up
tasks, the annotations, the saved views, the active-profile pointer and
the persisted snapshot are all unchanged. -/
theorem add_event_validation_spec (io : SaveOutcome) (r : Record) (s : Store) :
    ((∃ msg, (add_event io r s).1 = .error (.validation msg)) ↔ ¬ AddOk r)
    ∧ (¬ AddOk r →
        (∀ q, (get_events q ((add_event io r s).2)).1 = (get_events q s).1)
        ∧ ((add_event io r s).2).profiles = s.profiles
        ∧ ((add_event io r s).2).active_profile_id = s.active_profile_id
        ∧ ((add_event io r s).2).followup_tasks = s.followup_tasks
        ∧ ((add_event io r s).2).annotations = s.annotations
        ∧ ((add_event io r s).2).saved_views = s.saved_views
        ∧ ((add_event io r s).2).disk = s.disk) := by
  cases hP : r.patient_id with
  | none =>
    constructor
    · simp only [add_event, hP]
      constructor
      · rintro ⟨_, _⟩
        rintro ⟨⟨pid, hpid, _⟩, _⟩
        rw [hP] at hpid
        exact Option.noConfusion hpid
      · intro _
        exact ⟨"Patient ID required", rfl⟩
    · intro _
      simp [add_event, hP]
  | some pid =>
    by_cases hpe : pid = ""
    · constructor
      · simp only [add_event, hP, if_pos hpe]
        constructor
        · rintro ⟨_, _⟩
          rintro ⟨⟨pid2, hpid2, hne⟩, _⟩
          rw [hP] at hpid2
          cases hpid2
          exact hne hpe
        · intro _
          exact ⟨"Patient ID required", rfl⟩
      · intro _
        simp [add_event, hP, hpe]
    · have hfirst : ∃ p2, r.patient_id = some p2 ∧ p2 ≠ "" := ⟨pid, hP, hpe⟩
      cases hmk : mkTypedEvent r with
      | error msg =>
        have hnot : ¬ AddOk r := by
          rintro ⟨_, hE, hV⟩
          rcases (mkTypedEvent_ok_iff r).mpr ⟨hE, hV⟩ with ⟨e, he⟩
          rw [hmk] at he
          exact Except.noConfusion he
        constructor
        · simp only [add_event, hP, if_neg hpe, hmk]
          exact ⟨fun _ => hnot, fun _ => ⟨msg, rfl⟩⟩
        · intro _
          by_cases hev : (alGet s.events pid).isSome
          · simp [add_event, hP, hpe, hmk, hev]
          · have hnone : alGet s.events pid = none := by
              cases hg : alGet s.events pid
              · rfl
              · rw [hg] at hev
                exact absurd rfl hev
            simp only [add_event, hP, if_neg hpe, hmk, hev, if_neg,
              Bool.false_eq_true]
            refine ⟨?_, rfl, rfl, rfl, rfl, rfl, rfl⟩
            intro q
            by_cases hq : q = pid
            · subst hq
              simp [get_events, alGet_alSet_self, hnone]
            · simp [get_events, alGet_alSet_ne s.events pid q [] hq]
      | ok ev =>
        have hok : AddOk r :=
          ⟨hfirst, (mkTypedEvent_ok_iff r).mp ⟨ev, hmk⟩⟩
        constructor
        · constructor
          · rintro ⟨msg, hmsg⟩
            exfalso
            simp only [add_event, hP, if_neg hpe, hmk] at hmsg
            cases io <;> simp only [save_data] at hmsg <;> cases hmsg
          · intro hcon
            exact absurd hok hcon
        · intro hcon
          exact absurd hok hcon

/-- A Wellness record carrying neither mood nor anxiety. -/
def wellnessNoMood : Record :=
  { id := some "e1", patient_id := some "p1",
    timestamp := some "2025-01-01T00:00:00", event_type := some "wellness" }

/-- C3 counterexample: the claim requires `add_event` to fail when a
Wellness record lacks mood and anxiety; the code accepts exactly such a
record, appends the event, and returns it. -/
theorem add_event_wellness_no_mood_accepted :
    (add_event .ok wellnessNoMood {}).1 =
      .ok (.wellness ⟨"e1", "p1", "2025-01-01T00:00:00"⟩ none none none)
    ∧ (get_events "p1" ((add_event .ok wellnessNoMood {}).2)).1 =
      [.wellness ⟨"e1", "p1", "2025-01-01T00:00:00"⟩ none none none] :=
  ⟨rfl, rfl⟩

/-- A record whose only flaw is a missing `id` envelope field. -/
def recordNoId : Record :=
  { patient_id := some "p1", timestamp := some "2025-01-01T00:00:00",
    event_type := some "wellness" }

/-- Witness for C3 at a concrete input. -/
theorem add_event_validation_spec_witness :
    (∀ q, (get_events q ((add_event .ok recordNoId {}).2)).1 =
        (get_events q ({} : Store)).1)
    ∧ ((add_event .ok recordNoId {}).2).profiles = Store.profiles {}
    ∧ ((add_event .ok recordNoId {}).2).active_profile_id =
        Store.active_profile_id {}
    ∧ ((add_event .ok recordNoId {}).2).followup_tasks =
        Store.followup_tasks {}
    ∧ ((add_event .ok recordNoId {}).2).annotations = Store.annotations {}
    ∧ ((add_event .ok recordNoId {}).2).saved_views = Store.saved_views {}
    ∧ ((add_event .ok recordNoId {}).2).disk = Store.disk {} :=
  (add_event_validation_spec .ok recordNoId {}).2
    (by rintro ⟨_, ⟨hid, _, _⟩, _⟩; exact hid rfl)

/-! ## C7 -/

/-- C7 (amended): `add_event` dispatches on the `event_type` discriminator
to construct the correctly-typed variant for each of the five known event
types — every successfully returned event is a typed variant (never the
bare base envelope) whose tag equals the record's discriminator.  For a
record whose discriminator is missing or not one of the five known values
(even one carrying a patient_id), the dispatch does fall through to the
base-envelope constructor, but that constructor's own validation of
`event_type` rejects the record, so `add_event` raises a validation error
instead of storing a base-envelope event. -/
theorem add_event_dispatch_spec (io : SaveOutcome) (r : Record) (s : Store) :
    (∀ e, (add_event io r s).1 = .ok e →
        e.isBase = false ∧ r.event_type = some e.eventType.toTag)
    ∧ ((r.event_type = none ∨
          ∀ t, r.event_type = some t → parseEventType t = none) →
        ∃ msg, (add_event io r s).1 = .error (.validation msg)) := by
  constructor
  · intro e he
    cases hP : r.patient_id with
    | none =>
      simp only [add_event, hP] at he
      cases he
    | some pid =>
      by_cases hpe : pid = ""
      · simp only [add_event, hP, if_pos hpe] at he
        cases he
      · cases hmk : mkTypedEvent r with
        | error msg =>
          simp only [add_event, hP, if_neg hpe, hmk] at he
          cases he
        | ok ev =>
          simp only [add_event, hP, if_neg hpe, hmk] at he
          cases io <;> simp only [save_data] at he <;> cases he
          exact mkTypedEvent_ok_variant r e hmk
  · intro hbad
    have hmk : ∀ e, ¬ mkTypedEvent r = .ok e := by
      intro e he
      rcases (mkTypedEvent_ok_iff r).mp ⟨e, he⟩ with ⟨_, hV⟩
      have hcontra : ∀ tag : String, r.event_type = some tag →
          parseEventType tag = none := by
        intro tag htag
        cases hbad with
        | inl h => rw [h] at htag; exact Option.noConfusion htag
        | inr h => exact h tag htag
      rcases hV with ⟨h, _⟩ | h | ⟨h, _⟩ | ⟨h, _, _⟩ | ⟨h, _, _⟩ <;>
        · have := hcontra _ h
          simp [parseEventType] at this
    cases hP : r.patient_id with
    | none =>
      simp only [add_event, hP]
      exact ⟨"Patient ID required", rfl⟩
    | some pid =>
      by_cases hpe : pid = ""
      · simp only [add_event, hP, if_pos hpe]
        exact ⟨"Patient ID required", rfl⟩
      · cases hm : mkTypedEvent r with
        | error msg =>
          simp only [add_event, hP, if_neg hpe, hm]
          exact ⟨msg, rfl⟩
        | ok ev => exact absurd hm (hmk ev)

/-- A record with a `patient_id` and envelope fields but an unknown
discriminator value. -/
def unknownTypeRecord : Record :=
  { id := some "e1", patient_id := some "p1",
    timestamp := some "2025-01-01T00:00:00", event_type := some "note" }

/-- C7 counterexample: the claim says a record with an unknown
discriminator (while carrying a patient_id) falls back to the base
envelope shape instead of failing; the code raises a validation error and
stores nothing. -/
theorem add_event_unknown_type_fails :
    (add_event .ok unknownTypeRecord {}).1 =
      .error (.validation "event_type: value is not a valid enumeration member")
    ∧ (get_events "p1" ((add_event .ok unknownTypeRecord {}).2)).1 = [] :=
  ⟨rfl, rfl⟩

/-- Witness for C7 at a concrete input. -/
theorem add_event_dispatch_spec_witness :
    ∃ msg, (add_event .ok unknownTypeRecord {}).1 =
      .error (.validation msg) :=
  (add_event_dispatch_spec .ok unknownTypeRecord {}).2
    (Or.inr (fun t ht => by
      have : t = "note" := by injection ht with h; exact h.symm
      rw [this]
      rfl))

/-! ## C4 -/

/-- The event `add_event` builds from `validWellnessRecord`. -/
def validWellnessEvent : Event :=
  .wellness ⟨"e2", "p1", "2025-01-02T00:00:00"⟩ (some 3) (some 2) none

/-- C5 (amended): provided the active-profile pointer refers to a stored
profile (every state the store itself produces satisfies this; a crafted
snapshot file can violate it), `delete_profile` never leaves the store
with zero profiles: afterwards the profile map is non-empty and the
active pointer again refers to a stored profile, and deleting the last
remaining profile results in exactly one newly bootstrapped default
profile. -/
theorem delete_profile_never_empties (uuid : String) (io : SaveOutcome)
    (pid : String) (s : Store)
    (hne : ¬ s.profiles = [])
    (hact : ¬ alGet s.profiles s.active_profile_id = none) :
    ¬ ((delete_profile uuid io pid s).2).profiles = []
    ∧ ¬ alGet ((delete_profile uuid io pid s).2).profiles
        ((delete_profile uuid io pid s).2).active_profile_id = none
    ∧ (∀ p, s.profiles = [(pid, p)] →
        ((delete_profile uuid io pid s).2).profiles =
          [("default", generatedProfile "John Doe" "default")]) := by
  cases hg : alGet s.profiles pid with
  | none =>
    have hns : ∀ p, ¬ s.profiles = [(pid, p)] := by
      intro p hs
      rw [hs] at hg
      simp [alGet] at hg
    refine ⟨?_, ?_, ?_⟩ <;> simp only [delete_profile, hg]
    · exact hne
    · exact hact
    · intro p hs
      exact absurd hs (hns p)
  | some w =>
    by_cases hA : s.active_profile_id = pid
    · cases hD : alDel s.profiles pid with
      | cons kv t =>
        have hred : ((delete_profile uuid io pid s).2).profiles = kv :: t
            ∧ ((delete_profile uuid io pid s).2).active_profile_id =
              kv.1 := by
          cases io <;>
            simp [delete_profile, hg, hA, hD, save_data]
        refine ⟨?_, ?_, ?_⟩
        · rw [hred.1]
          simp
        · rw [hred.1, hred.2]
          simp [alGet]
        · intro p hs
          exfalso
          rw [hs] at hD
          simp [alDel] at hD
      | nil =>
        have hred : ((delete_profile uuid io pid s).2).profiles =
            [("default", generatedProfile "John Doe" "default")]
            ∧ ((delete_profile uuid io pid s).2).active_profile_id =
              "default" := by
          cases io <;>
            simp [delete_profile, hg, hA, hD, create_new_profile,
              save_data, alSet]
        refine ⟨?_, ?_, ?_⟩
        · rw [hred.1]
          simp
        · rw [hred.1, hred.2]
          simp [alGet]
        · intro p hs
          exact hred.1
    · have hpres : alGet (alDel s.profiles pid) s.active_profile_id =
          alGet s.profiles s.active_profile_id :=
        alGet_alDel_ne s.profiles pid s.active_profile_id hA
      have hnonempty : ¬ alDel s.profiles pid = [] := by
        intro hnil
        rw [hnil] at hpres
        exact hact (hpres.symm.trans rfl)
      have hred : ((delete_profile uuid io pid s).2).profiles =
          alDel s.profiles pid
          ∧ ((delete_profile uuid io pid s).2).active_profile_id =
            s.active_profile_id := by
        cases io <;>
          simp [delete_profile, hg, hA, save_data]
      refine ⟨?_, ?_, ?_⟩
      · rw [hred.1]
        exact hnonempty
      · rw [hred.1, hred.2, hpres]
        exact hact
      · intro p hs
        exfalso
        rw [hs] at hact
        simp [alGet] at hact
        exact hA hact.symm

/-- A store whose active pointer dangles (loadable from a crafted
snapshot: profile map has only `p1`, active pointer says `p2`). -/
def strayActiveStore : Store :=
  { profiles := [("p1", generatedProfile "Alice" "p1")],
    active_profile_id := "p2" }

/-- C5 counterexample: deleting the only profile of `strayActiveStore`
(whose active pointer does not refer to a stored profile) leaves the
store with zero profiles, so the claim fails for this store state. -/
theorem delete_profile_empties_counterexample :
    ((delete_profile "u0" .ok "p1" strayActiveStore).2).profiles = [] :=
  rfl

/-- A store holding exactly one profile, which is active. -/
def soloStore : Store :=
  { profiles := [("p1", generatedProfile "Alice" "p1")],
    active_profile_id := "p1" }

/-- Witness for C5 at a concrete input. -/
theorem delete_profile_never_empties_witness :
    ¬ ((delete_profile "u0" .ok "p1" soloStore).2).profiles = []
    ∧ ¬ alGet ((delete_profile "u0" .ok "p1" soloStore).2).profiles
        ((delete_profile "u0" .ok "p1" soloStore).2).active_profile_id = none
    ∧ (∀ p, soloStore.profiles = [("p1", p)] →
        ((delete_profile "u0" .ok "p1" soloStore).2).profiles =
          [("default", generatedProfile "John Doe" "default")]) :=
  delete_profile_never_empties "u0" .ok "p1" soloStore
    (by decide) (by decide)

/-! ## C6: snapshot round-trip -/

theorem parseRoute_toTag (r : TriageRoute) : parseRoute r.toTag = some r := by
  cases r <;> rfl

theorem parseCategory_toTag (c : LifestyleCategory) :
    parseCategory c.toTag = some c := by
  cases c <;> rfl

theorem roundtrip_measurement (m : Measurement) :
    mkMeasurement (serializeMeasurement m) = .ok m := rfl

theorem roundtrip_measurements (ms : List Measurement) :
    mkMeasurements (ms.map serializeMeasurement) = .ok ms := by
  induction ms with
  | nil => rfl
  | cons m rest ih =>
    simp [mkMeasurements, roundtrip_measurement, ih]

/-- Serializing any typed (non-base) event and re-parsing it through the
discriminator dispatch restores the identical typed variant. -/
theorem roundtrip_event (e : Event) (h : e.isBase = false) :
    mkTypedEvent (serializeEvent e) = .ok e := by
  cases e with
  | symptom env ms =>
    simp [serializeEvent, mkTypedEvent, Event.eventType, EventType.toTag,
      mkEnvelope, Event.env, roundtrip_measurements]
  | wellness env mood anxiety notes =>
    simp [serializeEvent, mkTypedEvent, Event.eventType, EventType.toTag,
      mkEnvelope, Event.env]
  | treatment env n d st en =>
    simp [serializeEvent, mkTypedEvent, Event.eventType, EventType.toTag,
      mkEnvelope, Event.env]
  | workflowResult env wn route ps cs et sf =>
    simp [serializeEvent, mkTypedEvent, Event.eventType, EventType.toTag,
      mkEnvelope, Event.env, parseRoute_toTag]
  | lifestyle env n cat d notes =>
    simp [serializeEvent, mkTypedEvent, Event.eventType, EventType.toTag,
      mkEnvelope, Event.env, parseCategory_toTag]
  | base env t =>
    simp [Event.isBase] at h

theorem roundtrip_profile (p : Profile) :
    mkProfile (serializeProfile p) = .ok p := rfl

theorem roundtrip_annot (a : Annot) :
    mkAnnot (serializeAnnot a) = .ok a := rfl

theorem roundtrip_saved_view (v : SavedView) :
    mkSavedView (serializeSavedView v) = .ok v := rfl

theorem roundtrip_session (x : AgentSession) :
    mkSession (serializeSession x) = .ok x := by
  cases x with
  | mk i a t an c => cases an <;> rfl

theorem roundtrip_list {α β : Type} (f : α → Except String β) (g : β → α)
    (l : List β) (h : ∀ x ∈ l, f (g x) = .ok x) :
    listMapM f (l.map g) = .ok l := by
  induction l with
  | nil => rfl
  | cons x rest ih =>
    have hx := h x (List.mem_cons_self x rest)
    have hrest := ih (fun y hy => h y (List.mem_cons_of_mem x hy))
    simp [listMapM, hx, hrest]

theorem roundtrip_alist {α β : Type} (f : α → Except String β) (g : β → α)
    (l : AList β) (h : ∀ kv ∈ l, f (g kv.2) = .ok kv.2) :
    alMapM f (l.map (fun kv => (kv.1, g kv.2))) = .ok l := by
  induction l with
  | nil => rfl
  | cons kv rest ih =>
    have hkv := h kv (List.mem_cons_self kv rest)
    have hrest := ih (fun x hx => h x (List.mem_cons_of_mem kv hx))
    simp [alMapM, hkv, hrest]

/-- No stored event is a bare base envelope.  Every store the program can
produce satisfies this: both construction sites (`add_event` and
`load_data`) validate `event_type` through `mkTypedEvent`, whose base
fallback always fails, and nothing else constructs `BaseEvent`. -/
def WellFormedEvents (s : Store) : Prop :=
  ∀ kv ∈ s.events, ∀ e ∈ kv.2, e.isBase = false

/-- C6: serializing the store to the snapshot document (`save_data`) and
reconstructing from that document (`load_data`) yields an equivalent
store: the same profiles, the same per-patient events with every event
restored to its correct tagged variant type (not degraded to the base
envelope), the same annotations and saved views, and the same
active-profile pointer. -/
theorem store_roundtrip (s : Store) (hwf : WellFormedEvents s) :
    ∃ s2, loadSnapshot (snapshotOf s) = .ok s2
      ∧ s2.profiles = s.profiles
      ∧ s2.events = s.events
      ∧ s2.annotations = s.annotations
      ∧ s2.saved_views = s.saved_views
      ∧ s2.active_profile_id = s.active_profile_id := by
  have h1 : alMapM mkProfile
      (s.profiles.map (fun kv => (kv.1, serializeProfile kv.2))) =
      .ok s.profiles :=
    roundtrip_alist mkProfile serializeProfile s.profiles
      (fun kv _ => roundtrip_profile kv.2)
  have h2 : alMapM (listMapM mkTypedEvent)
      (s.events.map (fun kv => (kv.1, kv.2.map serializeEvent))) =
      .ok s.events :=
    roundtrip_alist (listMapM mkTypedEvent) (fun es => es.map serializeEvent)
      s.events
      (fun kv hkv =>
        roundtrip_list mkTypedEvent serializeEvent kv.2
          (fun e he => roundtrip_event e (hwf kv hkv e he)))
  have h3 : alMapM (listMapM mkAnnot)
      (s.annotations.map (fun kv => (kv.1, kv.2.map serializeAnnot))) =
      .ok s.annotations :=
    roundtrip_alist (listMapM mkAnnot) (fun l => l.map serializeAnnot)
      s.annotations
      (fun kv _ =>
        roundtrip_list mkAnnot serializeAnnot kv.2
          (fun a _ => roundtrip_annot a))
  have h4 : alMapM (listMapM mkSavedView)
      (s.saved_views.map (fun kv => (kv.1, kv.2.map serializeSavedView))) =
      .ok s.saved_views :=
    roundtrip_alist (listMapM mkSavedView)
      (fun l => l.map serializeSavedView) s.saved_views
      (fun kv _ =>
        roundtrip_list mkSavedView serializeSavedView kv.2
          (fun v _ => roundtrip_saved_view v))
  have h5 : listMapM mkSession (s.sessions.map serializeSession) =
      .ok s.sessions :=
    roundtrip_list mkSession serializeSession s.sessions
      (fun x _ => roundtrip_session x)
  refine ⟨{ profiles := s.profiles, active_profile_id := s.active_profile_id,
            sessions := s.sessions,
            events := s.events, followup_tasks := [],
            annotations := s.annotations, saved_views := s.saved_views,
            disk := .snapshotFile (snapshotOf s) }, ?_, rfl, rfl, rfl, rfl,
    rfl⟩
  simp [loadSnapshot, snapshotOf, h1, h2, h3, h4, h5]

/-- A concrete treatment event. -/
def demoTreatmentEvent : Event :=
  .treatment ⟨"e3", "p1", "2025-01-03T00:00:00"⟩ "FOLFOX" none none none

/-- A concrete annotation entity. -/
def demoAnnot : Annot :=
  { id := "a1", patient_id := "p1", title := "vacation",
    start_timestamp := "2025-01-05", end_timestamp := "2025-01-09",
    created_at := "2025-01-04" }

/-- A concrete saved view. -/
def demoView : SavedView :=
  { id := "v1", patient_id := "p1", name := "symptoms",
    created_at := "2025-01-06" }

/-- A concrete store with one profile, two typed events, one annotation
and one saved view. -/
def demoStore : Store :=
  { profiles := [("p1", generatedProfile "Alice" "p1")],
    active_profile_id := "p1",
    events := [("p1", [validWellnessEvent, demoTreatmentEvent])],
    annotations := [("p1", [demoAnnot])],
    saved_views := [("p1", [demoView])] }

/-- Witness for C6 at a concrete input. -/
theorem store_roundtrip_witness :
    ∃ s2, loadSnapshot (snapshotOf demoStore) = .ok s2
      ∧ s2.profiles = demoStore.profiles
      ∧ s2.events = demoStore.events
      ∧ s2.annotations = demoStore.annotations
      ∧ s2.saved_views = demoStore.saved_views
      ∧ s2.active_profile_id = demoStore.active_profile_id :=
  store_roundtrip demoStore (by
    intro kv hkv e he
    rcases List.mem_cons.mp hkv with rfl | hkv2
    · rcases List.mem_cons.mp he with rfl | he2
      · rfl
      · rcases List.mem_cons.mp he2 with rfl | he3
        · rfl
        · cases he3
    · cases hkv2)

/-! ## C8: delete_event -/

/-- All stored events, in the scan order of `delete_event`: patients in
dict insertion order, each patient's list in insertion order. -/
def allEvents (s : Store) : List Event := (s.events.map Prod.snd).flatten

theorem mem_allEvents (s : Store) (e : Event) :
    e ∈ allEvents s ↔ ∃ kv ∈ s.events, e ∈ kv.2 := by
  simp only [allEvents, List.mem_flatten, List.mem_map]
  constructor
  · rintro ⟨l, ⟨kv, hkv, rfl⟩, he⟩
    exact ⟨kv, hkv, he⟩
  · rintro ⟨kv, hkv, he⟩
    exact ⟨kv.2, ⟨kv, hkv, rfl⟩, he⟩

theorem alGet_value_mem {α : Type} :
    ∀ (l : AList α) (q : String) (v : α), alGet l q = some v →
      ∃ kv ∈ l, kv.2 = v
  | [], _, _, h => by simp [alGet] at h
  | kv :: rest, q, v, h => by
    by_cases hq : kv.1 = q
    · simp only [alGet, if_pos hq] at h
      cases h
      exact ⟨kv, List.mem_cons_self kv rest, rfl⟩
    · simp only [alGet, if_neg hq] at h
      rcases alGet_value_mem rest q v h with ⟨kv2, hkv2, hv⟩
      exact ⟨kv2, List.mem_cons_of_mem kv hkv2, hv⟩

theorem eraseFirstById_none (eid : String) (es : List Event) :
    eraseFirstById eid es = none ↔ ∀ e ∈ es, ¬ e.id = eid := by
  induction es with
  | nil => simp [eraseFirstById]
  | cons e rest ih =>
    by_cases h : e.id = eid
    · simp [eraseFirstById, h]
    · simp [eraseFirstById, h, Option.map_eq_none', ih]

theorem eraseFirstById_some (eid : String) :
    ∀ (es es2 : List Event), eraseFirstById eid es = some es2 →
    ∃ l1 e l2, es = l1 ++ e :: l2 ∧ e.id = eid
      ∧ (∀ x ∈ l1, ¬ x.id = eid) ∧ es2 = l1 ++ l2
  | [], _, h => by simp [eraseFirstById] at h
  | e :: rest, es2, h => by
    by_cases hid : e.id = eid
    · simp only [eraseFirstById, if_pos hid, Option.some.injEq] at h
      exact ⟨[], e, rest, by simp, hid, by simp, by simp [h]⟩
    · simp only [eraseFirstById, if_neg hid, Option.map_eq_some'] at h
      rcases h with ⟨es3, h3, hes⟩
      rcases eraseFirstById_some eid rest es3 h3 with
        ⟨l1, x, l2, hsplit, hx, hfree, hes3⟩
      refine ⟨e :: l1, x, l2, by simp [hsplit], hx, ?_, by
        simp [← hes, hes3]⟩
      intro y hy
      rcases List.mem_cons.mp hy with rfl | hy2
      · exact hid
      · exact hfree y hy2

theorem deleteEventScan_none (eid : String) (evs : AList (List Event)) :
    deleteEventScan eid evs = none ↔
      ∀ kv ∈ evs, ∀ e ∈ kv.2, ¬ e.id = eid := by
  induction evs with
  | nil => simp [deleteEventScan]
  | cons kv rest ih =>
    cases hE : eraseFirstById eid kv.2 with
    | some es2 =>
      have hnot : ¬ ∀ e ∈ kv.2, ¬ e.id = eid := by
        rcases eraseFirstById_some eid kv.2 es2 hE with
          ⟨l1, e, l2, hsp, hid, _, _⟩
        intro hall
        exact hall e (by simp [hsp]) hid
      simp [deleteEventScan, hE, hnot]
    | none =>
      have hfree := (eraseFirstById_none eid kv.2).mp hE
      simp only [deleteEventScan, hE, Option.map_eq_none', ih]
      constructor
      · intro hall kv2 hkv2
        rcases List.mem_cons.mp hkv2 with rfl | h2
        · exact hfree
        · exact hall kv2 h2
      · intro hall kv2 hkv2
        exact hall kv2 (List.mem_cons_of_mem kv hkv2)

theorem deleteEventScan_some (eid : String) :
    ∀ (evs evs2 : AList (List Event)), deleteEventScan eid evs = some evs2 →
    ∃ pre pid es post l1 e l2,
      evs = pre ++ (pid, es) :: post
      ∧ es = l1 ++ e :: l2
      ∧ e.id = eid
      ∧ (∀ kv ∈ pre, ∀ x ∈ kv.2, ¬ x.id = eid)
      ∧ (∀ x ∈ l1, ¬ x.id = eid)
      ∧ evs2 = pre ++ (pid, l1 ++ l2) :: post
  | [], _, h => by simp [deleteEventScan] at h
  | kv :: rest, evs2, h => by
    cases hE : eraseFirstById eid kv.2 with
    | some es2 =>
      simp only [deleteEventScan, hE, Option.some.injEq] at h
      rcases eraseFirstById_some eid kv.2 es2 hE with
        ⟨l1, e, l2, hsp, hid, hfree, hes2⟩
      exact ⟨[], kv.1, kv.2, rest, l1, e, l2, by simp, hsp, hid, by simp,
        hfree, by simp [← h, hes2]⟩
    | none =>
      simp only [deleteEventScan, hE, Option.map_eq_some'] at h
      rcases h with ⟨evs3, h3, heq⟩
      rcases deleteEventScan_some eid rest evs3 h3 with
        ⟨pre, pid, es, post, l1, e, l2, hsp, hes, hid, hprefree, hl1free,
          hevs3⟩
      refine ⟨kv :: pre, pid, es, post, l1, e, l2, by simp [hsp], hes, hid,
        ?_, hl1free, by simp [← heq, hevs3]⟩
      intro kv2 hkv2
      rcases List.mem_cons.mp hkv2 with rfl | h2
      · exact (eraseFirstById_none eid kv2.2).mp hE
      · exact hprefree kv2 h2

/-- C8 (amended): unconditionally, `delete_event` returns true iff a
removal occurred, removes exactly the first match of the linear scan over
all patients' lists (everything before the removed event in scan order
does not match), persists only on success, and on a missing id returns
false leaving every patient's event list (and the whole store, snapshot
file included) unchanged.  The claim's "get_events never again returns an
event with id E for any patient" holds provided at most one stored event
carries id `E` — ids are caller-supplied and the store does not enforce
their uniqueness, and with duplicates the surviving duplicate is still
returned.  Stated with a succeeding persistence write (`io = .ok`); a
failing one is claim C4's concern. -/
theorem delete_event_spec (eid : String) (s : Store) :
    ((∀ e ∈ allEvents s, ¬ e.id = eid) →
        (delete_event .ok eid s).1 = .ok false
        ∧ (delete_event .ok eid s).2 = s)
    ∧ ((∃ e ∈ allEvents s, e.id = eid) →
        (delete_event .ok eid s).1 = .ok true
        ∧ (∃ l1 e l2, allEvents s = l1 ++ e :: l2 ∧ e.id = eid
            ∧ (∀ x ∈ l1, ¬ x.id = eid)
            ∧ allEvents ((delete_event .ok eid s).2) = l1 ++ l2)
        ∧ (((allEvents s).filter (fun e => decide (e.id = eid))).length ≤ 1 →
            ∀ q, ∀ e ∈ (get_events q ((delete_event .ok eid s).2)).1,
              ¬ e.id = eid)
        ∧ ((delete_event .ok eid s).2).disk =
            .snapshotFile (snapshotOf ((delete_event .ok eid s).2))
        ∧ ((delete_event .ok eid s).2).profiles = s.profiles
        ∧ ((delete_event .ok eid s).2).active_profile_id =
            s.active_profile_id
        ∧ ((delete_event .ok eid s).2).annotations = s.annotations
        ∧ ((delete_event .ok eid s).2).saved_views = s.saved_views
        ∧ ((delete_event .ok eid s).2).followup_tasks =
            s.followup_tasks) := by
  constructor
  · intro hfree
    have hnone : deleteEventScan eid s.events = none := by
      rw [deleteEventScan_none]
      intro kv hkv e he
      exact hfree e ((mem_allEvents s e).mpr ⟨kv, hkv, he⟩)
    constructor <;> simp [delete_event, hnone]
  · rintro ⟨e0, he0, hid0⟩
    cases hscan : deleteEventScan eid s.events with
    | none =>
      exfalso
      rcases (mem_allEvents s e0).mp he0 with ⟨kv, hkv, hin⟩
      exact (deleteEventScan_none eid s.events).mp hscan kv hkv e0 hin hid0
    | some evs2 =>
      rcases deleteEventScan_some eid s.events evs2 hscan with
        ⟨pre, pid, es, post, l1, e, l2, hsp, hes, hid, hprefree, hl1free,
          hevs2⟩
      have hresult : delete_event .ok eid s =
          (.ok true,
            { s with
              events := evs2,
              disk := .snapshotFile (snapshotOf { s with events := evs2 }) }) := by
        simp [delete_event, hscan, save_data]
      have hallold : allEvents s =
          ((pre.map Prod.snd).flatten ++ l1) ++
            e :: (l2 ++ (post.map Prod.snd).flatten) := by
        simp [allEvents, hsp, hes]
      have hallnew : allEvents ((delete_event .ok eid s).2) =
          ((pre.map Prod.snd).flatten ++ l1) ++
            (l2 ++ (post.map Prod.snd).flatten) := by
        rw [hresult]
        simp [allEvents, hevs2]
      have hgl1free : ∀ x ∈ (pre.map Prod.snd).flatten ++ l1,
          ¬ x.id = eid := by
        intro x hx
        rcases List.mem_append.mp hx with hx | hx
        · rcases List.mem_flatten.mp hx with ⟨es3, hes3, hin3⟩
          rcases List.mem_map.mp hes3 with ⟨kv3, hkv3, rfl⟩
          exact hprefree kv3 hkv3 x hin3
        · exact hl1free x hx
      have hgl2free :
          ((allEvents s).filter (fun e => decide (e.id = eid))).length ≤ 1 →
          ∀ x ∈ l2 ++ (post.map Prod.snd).flatten, ¬ x.id = eid := by
        intro huniq
        have hfil : ((allEvents s).filter
            (fun x => decide (x.id = eid))).length =
            1 + ((l2 ++ (post.map Prod.snd).flatten).filter
              (fun x => decide (x.id = eid))).length := by
          rw [hallold, List.filter_append]
          have hf1 : ((pre.map Prod.snd).flatten ++ l1).filter
              (fun x => decide (x.id = eid)) = [] := by
            rw [List.filter_eq_nil_iff]
            intro a ha
            simp [hgl1free a ha]
          rw [hf1]
          simp [List.filter_cons, hid]
          omega
        intro x hx hxid
        have hmem : x ∈ (l2 ++ (post.map Prod.snd).flatten).filter
            (fun x => decide (x.id = eid)) :=
          List.mem_filter.mpr ⟨hx, by simp [hxid]⟩
        have hpos : 0 < ((l2 ++ (post.map Prod.snd).flatten).filter
            (fun x => decide (x.id = eid))).length :=
          List.length_pos.mpr (fun hnil => by rw [hnil] at hmem; cases hmem)
        rw [hfil] at huniq
        omega
      refine ⟨by rw [hresult], ⟨_, e, _, hallold, hid, hgl1free, hallnew⟩,
        ?_, by rw [hresult]; rfl, by rw [hresult], by rw [hresult],
        by rw [hresult], by rw [hresult], by rw [hresult]⟩
      intro huniq q x hx hxid
      have hx2 : x ∈ (alGet ((delete_event .ok eid s).2).events q).getD [] :=
        (perm_sortBy tsDescLe _).mem_iff.mp hx
      have hmem2 : x ∈ allEvents ((delete_event .ok eid s).2) := by
        cases hg : alGet ((delete_event .ok eid s).2).events q with
        | none => rw [hg] at hx2; cases hx2
        | some es3 =>
          rw [hg] at hx2
          rcases alGet_value_mem _ q es3 hg with ⟨kv3, hkv3, hv3⟩
          exact (mem_allEvents _ x).mpr ⟨kv3, hkv3, by rw [hv3]; exact hx2⟩
      rw [hallnew] at hmem2
      rcases List.mem_append.mp hmem2 with hmem2 | hmem2
      · exact hgl1free x hmem2 hxid
      · exact hgl2free huniq x hmem2 hxid

/-- Two distinct stored events sharing the id `"e"`. -/
def dupEventA : Event :=
  .wellness ⟨"e", "p1", "2025-01-01T00:00:00"⟩ none none none

/-- Second event with the duplicated id `"e"`. -/
def dupEventB : Event :=
  .wellness ⟨"e", "p1", "2025-01-02T00:00:00"⟩ (some 1) none none

/-- A store holding two events with the same id (nothing in the store
prevents this: ids are caller-supplied). -/
def dupIdStore : Store := { events := [("p1", [dupEventA, dupEventB])] }

/-- C8 counterexample: with two stored events sharing id `"e"`,
`delete_event("e")` reports a removal but `get_events` still returns an
event with id `"e"`, so the claim's "never again returns an event with
id E" fails as stated. -/
theorem delete_event_duplicate_id_counterexample :
    (delete_event .ok "e" dupIdStore).1 = .ok true
    ∧ dupEventB ∈ (get_events "p1" ((delete_event .ok "e" dupIdStore).2)).1
    ∧ dupEventB.id = "e" := by
  refine ⟨rfl, ?_, rfl⟩
  show dupEventB ∈ [dupEventB]
  exact List.mem_singleton.mpr rfl

/-- Witness for C8 at a concrete input. -/
theorem delete_event_spec_witness :
    (delete_event .ok "e2" demoStore).1 = .ok true
    ∧ (∃ l1 e l2, allEvents demoStore = l1 ++ e :: l2 ∧ e.id = "e2"
        ∧ (∀ x ∈ l1, ¬ x.id = "e2")
        ∧ allEvents ((delete_event .ok "e2" demoStore).2) = l1 ++ l2)
    ∧ (∀ q, ∀ e ∈ (get_events q ((delete_event .ok "e2" demoStore).2)).1,
        ¬ e.id = "e2")
    ∧ ((delete_event .ok "e2" demoStore).2).disk =
        .snapshotFile (snapshotOf ((delete_event .ok "e2" demoStore).2))
    ∧ ((delete_event .ok "e2" demoStore).2).profiles = demoStore.profiles
    ∧ ((delete_event .ok "e2" demoStore).2).active_profile_id =
        demoStore.active_profile_id
    ∧ ((delete_event .ok "e2" demoStore).2).annotations =
        demoStore.annotations
    ∧ ((delete_event .ok "e2" demoStore).2).saved_views =
        demoStore.saved_views
    ∧ ((delete_event .ok "e2" demoStore).2).followup_tasks =
        demoStore.followup_tasks := by
  have h := (delete_event_spec "e2" demoStore).2
    ⟨validWellnessEvent, by decide, rfl⟩
  exact ⟨h.1, h.2.1, h.2.2.1 (by decide), h.2.2.2.1, h.2.2.2.2.1,
    h.2.2.2.2.2.1, h.2.2.2.2.2.2.1, h.2.2.2.2.2.2.2.1,
    h.2.2.2.2.2.2.2.2⟩

end PatientData
